import Mathlib

/-!
PlayKit Unreal SDK: image client, blueprint library and legacy chat component

A shallow embedding of

* `Source/PlayKitSDK/Client/PlayKitImageClient.cpp` (`UPlayKitImageClient`),
* `Source/PlayKitSDK/PlayKitTypes.h` (the value records),
* `Source/PlayKitSDK/PlayKitBlueprintLibrary.cpp` (readiness and authentication),
* `Source/DeveloperWorksUnrealSDK/PlayKitSDK/Component/Chat.cpp` (`UChat`).

Member functions become pure functions from the object state (and the call
arguments) to the new state and the list of effects the call performs, in
program order: delegate broadcasts and calls into the HTTP transport.

The Unreal Engine runtime (JSON reader and writer, number formatting) is not
part of the repository; the functions of it that the plugin calls are
collected in the record `Engine` and passed as a parameter.
-/

namespace PlayKit

/-! ## Engine JSON document model -/

/-- JSON value of the engine (`FJsonValue` and its subclasses), one
constructor per value kind of `EJson`. A number holds the value of the stored
`double`. An object holds the field map of `FJsonObject`, represented as an
association list searched from the front. -/
inductive FJsonValue where
  | FJsonValueNull : FJsonValue
  | FJsonValueString (Value : String) : FJsonValue
  | FJsonValueNumber (Value : ℚ) : FJsonValue
  | FJsonValueBoolean (Value : Bool) : FJsonValue
  | FJsonValueArray (Values : List FJsonValue) : FJsonValue
  | FJsonValueObject (Values : List (String × FJsonValue)) : FJsonValue

/-- Field map of a JSON object (`FJsonObject::Values`). -/
abbrev FJsonObject := List (String × FJsonValue)

/-- Functions of the engine runtime that the plugin calls and whose
implementation lies outside the repository. -/
structure Engine where
  /-- Reader `FJsonSerializer::Deserialize(Reader, TSharedPtr<FJsonObject>&)`
  together with the validity test of the result: the field map when the text is
  a JSON document whose root is an object, `none` otherwise. -/
  Deserialize : String → Option FJsonObject
  /-- Writer `FJsonSerializer::Serialize(Object, Writer)`, condensed output. -/
  Serialize : FJsonObject → String
  /-- Text of a number, as `FJsonValueNumber::TryGetString` produces it. -/
  SanitizeFloat : ℚ → String
  /-- Number of a numeric text, as `FJsonValueString::TryGetNumber` reads it;
  `none` when the text is not numeric. -/
  Atod : String → Option ℚ
  /-- Conversion of a `double` to `int64` in `FJsonValue::TryGetNumber(int64&)`;
  `none` when the value is out of range. -/
  ToInt64 : ℚ → Option Int

/-- Lookup in the field map (`FJsonObject::TryGetField`). -/
def FJsonObject.TryGetField (Obj : FJsonObject) (FieldName : String) : Option FJsonValue :=
  (Obj.find? (fun kv => kv.1 == FieldName)).map (fun kv => kv.2)

/-- Conversion `FJsonValue::TryGetString`: strings as they are, numbers and
booleans as text, every other kind fails. -/
def FJsonValue.TryGetString (E : Engine) : FJsonValue → Option String
  | .FJsonValueString s => some s
  | .FJsonValueNumber x => some (E.SanitizeFloat x)
  | .FJsonValueBoolean b => some (if b then "true" else "false")
  | _ => none

/-- Conversion `FJsonValue::TryGetNumber(double&)`. -/
def FJsonValue.TryGetNumber (E : Engine) : FJsonValue → Option ℚ
  | .FJsonValueNumber x => some x
  | .FJsonValueBoolean b => some (if b then 1 else 0)
  | .FJsonValueString s => E.Atod s
  | _ => none

/-- Conversion `FJsonValue::TryGetArray`: only an array value succeeds. -/
def FJsonValue.TryGetArray : FJsonValue → Option (List FJsonValue)
  | .FJsonValueArray xs => some xs
  | _ => none

/-- Conversion `FJsonValue::TryGetObject`: only an object value succeeds. -/
def FJsonValue.TryGetObject : FJsonValue → Option FJsonObject
  | .FJsonValueObject o => some o
  | _ => none

/-- Accessor `FJsonValue::AsObject`: the shared pointer it returns. For a value
that is not an object the engine logs an error and returns its shared empty
object, which is a valid pointer. -/
def FJsonValue.AsObject (v : FJsonValue) : Option FJsonObject :=
  some (v.TryGetObject.getD [])

/-- Accessor `FJsonObject::TryGetStringField`. -/
def FJsonObject.TryGetStringField (E : Engine) (Obj : FJsonObject) (FieldName : String) :
    Option String :=
  (Obj.TryGetField FieldName).bind (FJsonValue.TryGetString E)

/-- Accessor `FJsonObject::TryGetNumberField` with an `int64` destination. -/
def FJsonObject.TryGetNumberField (E : Engine) (Obj : FJsonObject) (FieldName : String) :
    Option Int :=
  ((Obj.TryGetField FieldName).bind (FJsonValue.TryGetNumber E)).bind E.ToInt64

/-- Accessor `FJsonObject::TryGetArrayField`. -/
def FJsonObject.TryGetArrayField (Obj : FJsonObject) (FieldName : String) :
    Option (List FJsonValue) :=
  (Obj.TryGetField FieldName).bind FJsonValue.TryGetArray

/-- Decimal text of an integer (`FString::FromInt`). -/
def FromInt (Num : Int) : String := toString Num

/-! ## Settings and HTTP transport records -/

/-- Modelled from the spec: the plugin settings object (`UPlayKitSettings`),
whose header `PlayKitSettings.h` is not among the sources. The accessors
`GetBaseUrl`, `GetDeveloperToken` and `GetPlayerToken` are modelled as the
stored values they return. -/
structure UPlayKitSettings where
  GameId : String
  BaseUrl : String
  DeveloperToken : String
  PlayerToken : String
  bIgnoreDeveloperToken : Bool
  DefaultChatModel : String
  DefaultImageModel : String
deriving DecidableEq, Repr

/-- Accessor `UPlayKitSettings::GetBaseUrl`. -/
def UPlayKitSettings.GetBaseUrl (S : UPlayKitSettings) : String := S.BaseUrl

/-- Accessor `UPlayKitSettings::GetDeveloperToken`. -/
def UPlayKitSettings.GetDeveloperToken (S : UPlayKitSettings) : String := S.DeveloperToken

/-- Accessor `UPlayKitSettings::GetPlayerToken`. -/
def UPlayKitSettings.GetPlayerToken (S : UPlayKitSettings) : String := S.PlayerToken

/-- Modelled from the spec: the accessor `UPlayKitSettings::HasDeveloperToken`
of the missing header, read as "the developer token is not empty". -/
def UPlayKitSettings.HasDeveloperToken (S : UPlayKitSettings) : Bool :=
  !S.DeveloperToken.isEmpty

/-- HTTP request object (`IHttpRequest`). `Handle` is the identity of the
object that `FHttpModule::CreateRequest` allocated; two requests with the same
text are still two requests. -/
structure FHttpRequest where
  Handle : Nat
  URL : String
  Verb : String
  Headers : List (String × String)
  Content : String
deriving DecidableEq, Repr

/-- HTTP response object (`IHttpResponse`): what `GetResponseCode` and
`GetContentAsString` return. -/
structure FHttpResponse where
  ResponseCode : Int
  Content : String
deriving DecidableEq, Repr

/-- Setter `IHttpRequest::SetHeader`: replaces the header of that name or adds it. -/
def FHttpRequest.SetHeader (R : FHttpRequest) (Name Value : String) : FHttpRequest :=
  { R with Headers := (R.Headers.filter (fun h => h.1 != Name)) ++ [(Name, Value)] }

/-- Setter `IHttpRequest::SetContentAsString`. -/
def FHttpRequest.SetContentAsString (R : FHttpRequest) (ContentString : String) :
    FHttpRequest :=
  { R with Content := ContentString }

/-- Getter `IHttpRequest::GetHeader`, `none` when the header was never set. -/
def FHttpRequest.GetHeader (R : FHttpRequest) (Name : String) : Option String :=
  (R.Headers.find? (fun h => h.1 == Name)).map (fun h => h.2)

/-! ## PlayKitTypes.h -/

/-- Generated image result (`FPlayKitGeneratedImage`). `GeneratedAt` is `none`
for a default-constructed `FDateTime` and `some t` for
`FDateTime::FromUnixTimestamp(t)`. -/
structure FPlayKitGeneratedImage where
  bSuccess : Bool := false
  ImageBase64 : String := ""
  OriginalPrompt : String := ""
  RevisedPrompt : String := ""
  GeneratedAt : Option Int := none
  ErrorMessage : String := ""
deriving DecidableEq, Repr

/-- Image generation options (`FPlayKitImageOptions`); `Count` and `Seed` are
`int32` values. -/
structure FPlayKitImageOptions where
  Size : String := "1024x1024"
  Count : Int := 1
  Seed : Int := -1
deriving DecidableEq, Repr

/-! ## PlayKitImageClient.cpp -/

/-- What a member function of the image client does to the outside, in
program order: broadcasts of the three delegates and calls into the HTTP
transport (`ProcessRequest`, `CancelRequest` of a request object). -/
inductive Effect where
  | OnError (ErrorCode ErrorMessage : String) : Effect
  | OnImageGenerated (Image : FPlayKitGeneratedImage) : Effect
  | OnImagesGenerated (Images : List FPlayKitGeneratedImage) : Effect
  | ProcessRequest (Request : FHttpRequest) : Effect
  | CancelRequest (Request : FHttpRequest) : Effect
deriving DecidableEq, Repr

/-- Member variables of `UPlayKitImageClient`. -/
structure UPlayKitImageClient where
  ModelName : String := ""
  bIsProcessing : Bool := false
  LastPrompt : String := ""
  CurrentRequest : Option FHttpRequest := none
deriving DecidableEq, Repr

/-- Clamp of the engine, `FMath::Clamp(X, Min, Max)`. -/
def Clamp (X Min Max : Int) : Int :=
  if X < Min then Min else if X < Max then X else Max

namespace UPlayKitImageClient

/-- Member `Initialize`. -/
def Initialize (self : UPlayKitImageClient) (InModelName : String) : UPlayKitImageClient :=
  { self with ModelName := InModelName }

/-- Member `GetModelName`. -/
def GetModelName (self : UPlayKitImageClient) : String := self.ModelName

/-- Member `IsProcessing`. -/
def IsProcessing (self : UPlayKitImageClient) : Bool := self.bIsProcessing

/-- Member `CreateAuthenticatedRequest`; `Handle` identifies the request object
that `FHttpModule::CreateRequest` returns. -/
def CreateAuthenticatedRequest (Settings : Option UPlayKitSettings) (Handle : Nat)
    (Url : String) : FHttpRequest :=
  let Request : FHttpRequest :=
    { Handle := Handle, URL := Url, Verb := "POST", Headers := [], Content := "" }
  let Request := Request.SetHeader "Content-Type" "application/json"
  match Settings with
  | some S =>
    let Token :=
      if S.HasDeveloperToken && !S.bIgnoreDeveloperToken then S.GetDeveloperToken
      else S.GetPlayerToken
    if !Token.isEmpty then Request.SetHeader "Authorization" ("Bearer " ++ Token)
    else Request
  | none => Request

/-- Member `BroadcastError`: the error delegate, then a failed image result on
the single-image delegate. -/
def BroadcastError (ErrorCode ErrorMessage : String) : List Effect :=
  [ Effect.OnError ErrorCode ErrorMessage,
    Effect.OnImageGenerated { bSuccess := false, ErrorMessage := ErrorMessage } ]

/-- The JSON object `RequestBody` that `SendImageRequest` builds. -/
def RequestBody (ModelName Prompt : String) (Options : FPlayKitImageOptions) : FJsonObject :=
  let Body : FJsonObject :=
    [ ("model", FJsonValue.FJsonValueString ModelName),
      ("prompt", FJsonValue.FJsonValueString Prompt),
      ("n", FJsonValue.FJsonValueNumber (Clamp Options.Count 1 10)),
      ("size", FJsonValue.FJsonValueString Options.Size),
      ("response_format", FJsonValue.FJsonValueString "b64_json") ]
  if Options.Seed ≥ 0 then Body ++ [("seed", FJsonValue.FJsonValueNumber Options.Seed)]
  else Body

/-- Member `SendImageRequest`. -/
def SendImageRequest (E : Engine) (Settings : Option UPlayKitSettings) (Handle : Nat)
    (self : UPlayKitImageClient) (Prompt : String) (Options : FPlayKitImageOptions) :
    UPlayKitImageClient × List Effect :=
  if self.bIsProcessing then
    (self, BroadcastError "REQUEST_IN_PROGRESS" "A request is already in progress")
  else if Prompt.isEmpty then
    (self, BroadcastError "INVALID_PROMPT" "Prompt cannot be empty")
  else
    match Settings with
    | none => (self, BroadcastError "CONFIG_ERROR" "Settings not found")
    | some S =>
      let Url := S.GetBaseUrl ++ "/ai/" ++ S.GameId ++ "/v1/image"
      let RequestBodyStr := E.Serialize (RequestBody self.ModelName Prompt Options)
      let Request :=
        { CreateAuthenticatedRequest Settings Handle Url with Content := RequestBodyStr }
      ({ self with bIsProcessing := true, LastPrompt := Prompt, CurrentRequest := some Request },
        [Effect.ProcessRequest Request])

/-- Member `GenerateImage`. -/
def GenerateImage (E : Engine) (Settings : Option UPlayKitSettings) (Handle : Nat)
    (self : UPlayKitImageClient) (Prompt Size : String) : UPlayKitImageClient × List Effect :=
  SendImageRequest E Settings Handle self Prompt { Size := Size, Count := 1, Seed := -1 }

/-- Member `GenerateImageWithSeed`. -/
def GenerateImageWithSeed (E : Engine) (Settings : Option UPlayKitSettings) (Handle : Nat)
    (self : UPlayKitImageClient) (Prompt Size : String) (Seed : Int) :
    UPlayKitImageClient × List Effect :=
  SendImageRequest E Settings Handle self Prompt { Size := Size, Count := 1, Seed := Seed }

/-- Member `GenerateImages`. -/
def GenerateImages (E : Engine) (Settings : Option UPlayKitSettings) (Handle : Nat)
    (self : UPlayKitImageClient) (Prompt : String) (Options : FPlayKitImageOptions) :
    UPlayKitImageClient × List Effect :=
  SendImageRequest E Settings Handle self Prompt Options

/-- Body of the loop over `DataArray` in `HandleImageResponse`: the image added
to `Results` for one element, `none` when the element adds nothing. -/
def ParseImage (E : Engine) (LastPrompt : String) (Created : Int) (DataValue : FJsonValue) :
    Option FPlayKitGeneratedImage :=
  match DataValue.AsObject with
  | some DataObj =>
    some { bSuccess := true
           OriginalPrompt := LastPrompt
           GeneratedAt := some Created
           ImageBase64 := (DataObj.TryGetStringField E "b64_json").getD ""
           RevisedPrompt := (DataObj.TryGetStringField E "revised_prompt").getD "" }
  | none => none

/-- Member `HandleImageResponse`, the completion callback bound to every
request. The `Request` argument is not read. -/
def HandleImageResponse (E : Engine) (self : UPlayKitImageClient)
    (Request : Option FHttpRequest) (Response : Option FHttpResponse) (bWasSuccessful : Bool) :
    UPlayKitImageClient × List Effect :=
  let _ := Request
  let self := { self with bIsProcessing := false, CurrentRequest := none }
  match bWasSuccessful, Response with
  | false, _ => (self, BroadcastError "NETWORK_ERROR" "Network request failed")
  | true, none => (self, BroadcastError "NETWORK_ERROR" "Network request failed")
  | true, some Resp =>
    let ResponseCode := Resp.ResponseCode
    let ResponseContent := Resp.Content
    if ResponseCode < 200 ∨ ResponseCode ≥ 300 then
      (self, BroadcastError (FromInt ResponseCode) ResponseContent)
    else
      match E.Deserialize ResponseContent with
      | none => (self, BroadcastError "PARSE_ERROR" "Failed to parse response")
      | some JsonObject =>
        let Created : Int := (JsonObject.TryGetNumberField E "created").getD 0
        let Results : List FPlayKitGeneratedImage :=
          match JsonObject.TryGetArrayField "data" with
          | some DataArray => DataArray.filterMap (ParseImage E self.LastPrompt Created)
          | none => []
        let Single : List Effect :=
          match Results with
          | [Image] => [Effect.OnImageGenerated Image]
          | _ => []
        (self, Single ++ [Effect.OnImagesGenerated Results])

/-- Member `CancelRequest`. -/
def CancelRequest (self : UPlayKitImageClient) : UPlayKitImageClient × List Effect :=
  match self.CurrentRequest with
  | some Request =>
    ({ self with CurrentRequest := none, bIsProcessing := false }, [Effect.CancelRequest Request])
  | none => ({ self with bIsProcessing := false }, [])

end UPlayKitImageClient

/-! ## Reading a list of effects -/

/-- Arguments of the `OnError` broadcasts among the effects, in order. -/
def errorsOf : List Effect → List (String × String)
  | [] => []
  | Effect.OnError c m :: es => (c, m) :: errorsOf es
  | _ :: es => errorsOf es

/-- Arguments of the `OnImagesGenerated` broadcasts among the effects, in order. -/
def imagesGeneratedOf : List Effect → List (List FPlayKitGeneratedImage)
  | [] => []
  | Effect.OnImagesGenerated xs :: es => xs :: imagesGeneratedOf es
  | _ :: es => imagesGeneratedOf es

/-- Arguments of the `OnImageGenerated` broadcasts among the effects, in order. -/
def imageGeneratedOf : List Effect → List FPlayKitGeneratedImage
  | [] => []
  | Effect.OnImageGenerated x :: es => x :: imageGeneratedOf es
  | _ :: es => imageGeneratedOf es

/-- Requests handed to the transport (`ProcessRequest`) among the effects. -/
def processedOf : List Effect → List FHttpRequest
  | [] => []
  | Effect.ProcessRequest r :: es => r :: processedOf es
  | _ :: es => processedOf es

/-- Requests the transport was told to abort (`CancelRequest`) among the effects. -/
def cancelledOf : List Effect → List FHttpRequest
  | [] => []
  | Effect.CancelRequest r :: es => r :: cancelledOf es
  | _ :: es => cancelledOf es

/-- An effect with `f` applied to the request it carries, if it carries one. -/
def Effect.mapRequest (f : FHttpRequest → FHttpRequest) : Effect → Effect
  | Effect.ProcessRequest r => Effect.ProcessRequest (f r)
  | Effect.CancelRequest r => Effect.CancelRequest (f r)
  | e => e

/-- A client state with `f` applied to the request it holds, if it holds one. -/
def UPlayKitImageClient.mapRequest (f : FHttpRequest → FHttpRequest)
    (self : UPlayKitImageClient) : UPlayKitImageClient :=
  { self with CurrentRequest := self.CurrentRequest.map f }

/-! ## Image client with its transport: sequences of calls -/

/-- One step of a run of an image client: a call of `SendImageRequest` (through
any of the three public entry points), a call of `CancelRequest`, or the
transport delivering the completion callback of the request `Handle`. -/
inductive Op where
  | Send (Prompt : String) (Options : FPlayKitImageOptions) : Op
  | Cancel : Op
  | Complete (Handle : Nat) (Response : Option FHttpResponse) (bWasSuccessful : Bool) : Op
deriving DecidableEq, Repr

/-- An image client together with the bookkeeping of its transport.
`Pending` lists the requests handed to the transport whose completion callback
is still to come; `Live` lists those handed to the transport that are neither
cancelled nor completed. `NextHandle` is the handle of the next request
object. `LastAccepted` records the prompt of the last `SendImageRequest` that
handed a request to the transport, and is empty before the first. -/
structure World where
  Client : UPlayKitImageClient := {}
  NextHandle : Nat := 0
  Pending : List FHttpRequest := []
  Live : List FHttpRequest := []
  LastAccepted : String := ""
deriving DecidableEq, Repr

/-- A client freshly created and initialised with a model name, with a
transport that holds no request. -/
def World.initial (ModelName : String) : World :=
  { Client := UPlayKitImageClient.Initialize {} ModelName }

/-- The transport reacting to the effects of a client call: a processed
request becomes pending and live, a cancelled one stops being live and still
awaits its completion callback. -/
def World.transport (Pending Live : List FHttpRequest) :
    List Effect → List FHttpRequest × List FHttpRequest
  | [] => (Pending, Live)
  | Effect.ProcessRequest r :: es => World.transport (Pending ++ [r]) (Live ++ [r]) es
  | Effect.CancelRequest r :: es =>
    World.transport Pending (Live.filter (fun q => q.Handle != r.Handle)) es
  | _ :: es => World.transport Pending Live es

/-- One step of a run. The completion callback of a request is delivered only
while that request is pending, so once per request handed to the transport,
also when it was cancelled in between; a `Complete` of any other handle is no
step (`none`). -/
def World.step (E : Engine) (Settings : Option UPlayKitSettings) (w : World) :
    Op → Option World
  | Op.Send Prompt Options =>
    let r := UPlayKitImageClient.SendImageRequest E Settings w.NextHandle w.Client Prompt Options
    let t := World.transport w.Pending w.Live r.2
    some { Client := r.1, NextHandle := w.NextHandle + 1, Pending := t.1, Live := t.2,
           LastAccepted := if (processedOf r.2).isEmpty then w.LastAccepted else Prompt }
  | Op.Cancel =>
    let r := UPlayKitImageClient.CancelRequest w.Client
    let t := World.transport w.Pending w.Live r.2
    some { w with Client := r.1, Pending := t.1, Live := t.2 }
  | Op.Complete Handle Response bWasSuccessful =>
    match w.Pending.find? (fun q => q.Handle == Handle) with
    | some Request =>
      let r := UPlayKitImageClient.HandleImageResponse E w.Client (some Request) Response
        bWasSuccessful
      some { w with
        Client := r.1
        Pending := w.Pending.filter (fun q => q.Handle != Handle)
        Live := w.Live.filter (fun q => q.Handle != Handle) }
    | none => none

/-- A run: the steps one after the other, `none` as soon as one is no step. -/
def World.run (E : Engine) (Settings : Option UPlayKitSettings) : World → List Op → Option World
  | w, [] => some w
  | w, op :: ops => (World.step E Settings w op).bind (fun w1 => World.run E Settings w1 ops)

/-- The run of Send, Cancel, Send, completion of the first (cancelled) request
as a failure, Send. -/
def staleCompletionRun : List Op :=
  [ Op.Send "a" {}, Op.Cancel, Op.Send "b" {}, Op.Complete 0 none false, Op.Send "c" {} ]

/-! ## Chat.h and Chat.cpp (legacy chat component) -/

/-- Getter `FJsonObject::GetField` with no type requested: the field, or a
null value when the field is missing. -/
def FJsonObject.GetField (Obj : FJsonObject) (FieldName : String) : FJsonValue :=
  (Obj.TryGetField FieldName).getD FJsonValue.FJsonValueNull

/-- Getter `FJsonObject::GetStringField`: the text of the field, the empty
string (and a logged error) when the field is missing or has no text. -/
def FJsonObject.GetStringField (E : Engine) (Obj : FJsonObject) (FieldName : String) : String :=
  ((Obj.GetField FieldName).TryGetString E).getD ""

/-- Getter `FJsonObject::GetNumberField`: the number of the field, zero (and a
logged error) when the field is missing or is no number. -/
def FJsonObject.GetNumberField (E : Engine) (Obj : FJsonObject) (FieldName : String) : ℚ :=
  ((Obj.GetField FieldName).TryGetNumber E).getD 0

/-- Getter `FJsonObject::GetArrayField`: the elements of the field, the empty
array (and a logged error) when the field is missing or is no array. -/
def FJsonObject.GetArrayField (Obj : FJsonObject) (FieldName : String) : List FJsonValue :=
  ((Obj.GetField FieldName).TryGetArray).getD []

/-- Getter `FJsonObject::GetObjectField`: the shared pointer of the field read
as an object, see `FJsonValue.AsObject`. -/
def FJsonObject.GetObjectField (Obj : FJsonObject) (FieldName : String) : Option FJsonObject :=
  (Obj.GetField FieldName).AsObject

/-- Conversion of a `double` to `int32` by assignment: the fraction is
discarded. When the result does not fit 32 bits the language leaves it
undefined; the value taken here is the one the compiled code stores, the
least `int32`. -/
def DoubleToInt32 (x : ℚ) : Int :=
  let Truncated : Int := if 0 ≤ x then Rat.floor x else -(Rat.floor (-x))
  if -2147483648 ≤ Truncated ∧ Truncated ≤ 2147483647 then Truncated else -2147483648

namespace Chat

/-- Response record of Chat.h (`FPlayKitChatResponse`); the token counts are
`int32`. The default value is that of a member of a freshly created
component. -/
structure FPlayKitChatResponse where
  id : String := ""
  object : String := ""
  created : String := ""
  model : String := ""
  role : String := ""
  content : String := ""
  finsih_reason : String := ""
  prompt_tokens : Int := 0
  completion_tokens : Int := 0
  total_tokens : Int := 0
deriving DecidableEq, Repr

/-- Conversation entry (`FChatContext`). -/
structure FChatContext where
  role : String := ""
  content : String := ""
deriving DecidableEq, Repr

/-- What a member function of the chat component does to the outside, in
program order: broadcasts of its three delegates and the hand-over of a
request to the HTTP transport. -/
inductive ChatEffect where
  | OnPlayKitChatResponding (Response : FPlayKitChatResponse) : ChatEffect
  | OnPlayKitChatResponded (Response : FPlayKitChatResponse) : ChatEffect
  | OnPlayKitChatTalkTo (UserName ChatName Message : String) : ChatEffect
  | ProcessRequest (Request : FHttpRequest) : ChatEffect
deriving DecidableEq, Repr

/-- A fault that ends the program instead of a normal return. -/
inductive Fault where
  | ArrayIndexOutOfBounds : Fault
  | NullPointer : Fault
deriving DecidableEq, Repr

/-- Member variables of `UChat`. `PlayKitChatStream` has no initial value in
the source and is written by `ChatToAI` before any callback reads it. -/
structure UChat where
  SystemPrompt : String := ""
  AllContext : List FChatContext := []
  Game_ID : String := "8230bfea-509c-40d9-b961-f3361ee6fdde"
  ChatURL : String := "https://playkit.agentlandlab.com/ai/8230bfea-509c-40d9-b961-f3361ee6fdde/v1/chat"
  LastCompletedResponse : FPlayKitChatResponse := {}
  PlayKitChatStream : Bool := false
  CurrentHttpRequest : Option FHttpRequest := none
deriving DecidableEq, Repr

namespace UChat

/-- Member `AddContext`. -/
def AddContext (self : UChat) (Context : FChatContext) : UChat :=
  { self with AllContext := self.AllContext ++ [Context] }

/-- Member `ClearContext`. -/
def ClearContext (self : UChat) : UChat :=
  { self with AllContext := [] }

/-- Member `JsonObjectToString` on a valid object, condensed output. -/
def JsonObjectToString (E : Engine) (JsonObject : FJsonObject) : String :=
  E.Serialize JsonObject

/-- Member `StringToJsonObject`. -/
def StringToJsonObject (E : Engine) (JsonString : String) : Option FJsonObject :=
  if JsonString.isEmpty then none else E.Deserialize JsonString

/-- Member `ParsePlayKitResponse`. The element access `[0]` on the choices
array and the dereferences of the object pointers are the places where the
call can end in a fault. -/
def ParsePlayKitResponse (E : Engine) (self : UChat) (_Response : String) :
    Except Fault (UChat × List ChatEffect) :=
  match StringToJsonObject E _Response with
  | none => .ok (self, [])
  | some JsonObject =>
    match (JsonObject.GetArrayField "choices")[0]? with
    | none => .error Fault.ArrayIndexOutOfBounds
    | some Choice =>
      match Choice.AsObject with
      | none => .error Fault.NullPointer
      | some ChoiceObject =>
        match ChoiceObject.GetObjectField "message" with
        | none => .error Fault.NullPointer
        | some ReplyObject =>
          let role := ReplyObject.GetStringField E "role"
          let content := ReplyObject.GetStringField E "content"
          let finsih_reason := ReplyObject.GetStringField E "finsih_reason"
          let self := self.AddContext { role := role, content := content }
          match JsonObject.GetObjectField "usage" with
          | none => .error Fault.NullPointer
          | some UsageObject =>
            let PlayKitChatResponse : FPlayKitChatResponse :=
              { id := JsonObject.GetStringField E "id"
                object := JsonObject.GetStringField E "object"
                created := JsonObject.GetStringField E "created"
                model := JsonObject.GetStringField E "model"
                role := role
                content := content
                finsih_reason := finsih_reason
                prompt_tokens := DoubleToInt32 (UsageObject.GetNumberField E "prompt_tokens")
                completion_tokens :=
                  DoubleToInt32 (UsageObject.GetNumberField E "completion_tokens")
                total_tokens := DoubleToInt32 (UsageObject.GetNumberField E "total_tokens") }
            .ok ({ self with LastCompletedResponse := PlayKitChatResponse },
                 [ChatEffect.OnPlayKitChatResponding PlayKitChatResponse])

/-- Member `OnPlayKitResponding`, called from the progress callback.
`response` is what `_Request->GetResponse()` returns at that moment. In
streaming mode the text is split into lines and logged, nothing else. -/
def OnPlayKitResponding (E : Engine) (self : UChat) (response : Option FHttpResponse) :
    Except Fault (UChat × List ChatEffect) :=
  match response with
  | none => .ok (self, [])
  | some r =>
    let responseString := r.Content
    if !self.PlayKitChatStream then ParsePlayKitResponse E self responseString
    else .ok (self, [])

/-- Member `OnPlayKitResponded`. -/
def OnPlayKitResponded (self : UChat) : UChat × List ChatEffect :=
  (self, [ChatEffect.OnPlayKitChatResponded self.LastCompletedResponse])

/-- Member `InitPrompt`. -/
def InitPrompt (self : UChat) (Prompt _Game_ID : String) : UChat :=
  let self :=
    { self with
      Game_ID := _Game_ID
      SystemPrompt := Prompt
      ChatURL := "https://playkit.agentlandlab.com/ai/" ++ _Game_ID ++ "/v1/chat" }
  match self.AllContext with
  | first :: rest => { self with AllContext := { first with content := self.SystemPrompt } :: rest }
  | [] => self.AddContext { role := "system", content := self.SystemPrompt }

/-- The request body that `ChatToAI` builds from the history. -/
def RequestBody (AllContext : List FChatContext) (Model : String) (temperature : ℚ)
    (stream : Bool) : FJsonObject :=
  [ ("model", FJsonValue.FJsonValueString Model),
    ("messages", FJsonValue.FJsonValueArray (AllContext.map (fun context =>
      FJsonValue.FJsonValueObject
        [ ("role", FJsonValue.FJsonValueString context.role),
          ("content", FJsonValue.FJsonValueString context.content) ]))),
    ("temperature", FJsonValue.FJsonValueNumber temperature),
    ("stream", FJsonValue.FJsonValueBoolean stream) ]

/-- Member `ChatToAI`, up to the hand-over of the request; `Handle` identifies
the request object that `FHttpModule::CreateRequest` returns. The two callbacks
it binds are `OnRequestProgress64` and `OnProcessRequestComplete` below. -/
def ChatToAI (E : Engine) (Handle : Nat) (self : UChat)
    (AuthToken Message Model : String) (temperature : ℚ) (stream : Bool) :
    UChat × List ChatEffect :=
  let ContentObject : FJsonObject := [("message", FJsonValue.FJsonValueString Message)]
  let CurrentContext : FChatContext :=
    { role := "user", content := JsonObjectToString E ContentObject }
  let self := self.AddContext CurrentContext
  let Request : FHttpRequest :=
    { Handle := Handle, URL := self.ChatURL, Verb := "POST", Headers := [], Content := "" }
  let Request := Request.SetHeader "Content-Type" "application/json"
  let Request := Request.SetHeader "Authorization" ("Bearer " ++ AuthToken)
  let JsonObject := RequestBody self.AllContext Model temperature stream
  let Request := { Request with Content := JsonObjectToString E JsonObject }
  ({ self with PlayKitChatStream := stream, CurrentHttpRequest := some Request },
   [ ChatEffect.OnPlayKitChatTalkTo "UserName" "ChatName" CurrentContext.content,
     ChatEffect.ProcessRequest Request ])

/-- The progress callback bound in `ChatToAI`, on a component that is still
alive. `response` is what `_Request->GetResponse()` returns at that moment. -/
def OnRequestProgress64 (E : Engine) (self : UChat) (_Request : Option FHttpRequest)
    (response : Option FHttpResponse) : Except Fault (UChat × List ChatEffect) :=
  match _Request with
  | none => .ok (self, [])
  | some _ => OnPlayKitResponding E self response

/-- The completion callback bound in `ChatToAI`, on a component that is still
alive. An absent response or request and a status other than 200 are logged;
on every path the callback ends in `OnPlayKitResponded`. -/
def OnProcessRequestComplete (self : UChat) (_Request : Option FHttpRequest)
    (_Response : Option FHttpResponse) (bWasSuccessful : Bool) : UChat × List ChatEffect :=
  let _ := bWasSuccessful
  match _Response, _Request with
  | some _Resp, some _ =>
    let _responseCode := _Resp.ResponseCode
    OnPlayKitResponded self
  | _, _ => OnPlayKitResponded self

/-- A non-streaming turn as the transport drives it: `ChatToAI`, then one
progress callback per element of `progress` (each element the response text
received so far), then the completion callback with the final response. The
result is the state and all effects in order. -/
def nonStreamingTurn (E : Engine) (Handle : Nat) (self : UChat)
    (AuthToken Message Model : String) (temperature : ℚ) (progress : List String)
    (final : FHttpResponse) : Except Fault (UChat × List ChatEffect) := do
  let sent := ChatToAI E Handle self AuthToken Message Model temperature false
  let afterProgress ← progress.foldlM
    (fun (acc : UChat × List ChatEffect) (text : String) => do
      let r ← OnRequestProgress64 E acc.1 acc.1.CurrentHttpRequest
        (some { ResponseCode := final.ResponseCode, Content := text })
      pure (r.1, acc.2 ++ r.2))
    sent
  let done := OnProcessRequestComplete afterProgress.1 afterProgress.1.CurrentHttpRequest
    (some final) true
  pure (done.1, afterProgress.2 ++ done.2)

/-- Arguments of the `OnPlayKitChatResponded` broadcasts among the effects. -/
def respondedOf : List ChatEffect → List FPlayKitChatResponse
  | [] => []
  | ChatEffect.OnPlayKitChatResponded r :: es => r :: respondedOf es
  | _ :: es => respondedOf es

end UChat

end Chat

/-! ## Chat component: sequences of calls -/

namespace Chat

namespace UChat

/-- Arguments of the `OnPlayKitChatResponding` broadcasts among the effects. -/
def respondingOf : List ChatEffect → List FPlayKitChatResponse
  | [] => []
  | ChatEffect.OnPlayKitChatResponding r :: es => r :: respondingOf es
  | _ :: es => respondingOf es

/-- Arguments of the `OnPlayKitChatTalkTo` broadcasts among the effects. -/
def talkToOf : List ChatEffect → List (String × String × String)
  | [] => []
  | ChatEffect.OnPlayKitChatTalkTo u c m :: es => (u, c, m) :: talkToOf es
  | _ :: es => talkToOf es

/-- Requests handed to the transport among the effects of the chat component. -/
def chatProcessedOf : List ChatEffect → List FHttpRequest
  | [] => []
  | ChatEffect.ProcessRequest r :: es => r :: chatProcessedOf es
  | _ :: es => chatProcessedOf es

/-- A streaming turn as the transport drives it: `ChatToAI` with the stream
flag set, then one progress callback per element of `progress` (each element
the whole response text received so far), then the completion callback with
the final response. The result is the state and all effects in order. -/
def streamingTurn (E : Engine) (Handle : Nat) (self : UChat)
    (AuthToken Message Model : String) (temperature : ℚ) (progress : List String)
    (final : FHttpResponse) : Except Fault (UChat × List ChatEffect) := do
  let sent := ChatToAI E Handle self AuthToken Message Model temperature true
  let afterProgress ← progress.foldlM
    (fun (acc : UChat × List ChatEffect) (text : String) => do
      let r ← OnRequestProgress64 E acc.1 acc.1.CurrentHttpRequest
        (some { ResponseCode := final.ResponseCode, Content := text })
      pure (r.1, acc.2 ++ r.2))
    sent
  let done := OnProcessRequestComplete afterProgress.1 afterProgress.1.CurrentHttpRequest
    (some final) true
  pure (done.1, afterProgress.2 ++ done.2)

end UChat

/-- One call on a chat component that touches the conversation history. -/
inductive ChatOp where
  | InitPrompt (Prompt _Game_ID : String) : ChatOp
  | ChatToAI (Handle : Nat) (AuthToken Message Model : String) (temperature : ℚ)
      (stream : Bool) : ChatOp
  | ParsePlayKitResponse (_Response : String) : ChatOp
  | ClearContext : ChatOp

/-- The call of one `ChatOp` on a component. -/
def UChat.step (E : Engine) (self : UChat) : ChatOp → Except Fault (UChat × List ChatEffect)
  | ChatOp.InitPrompt Prompt _Game_ID => .ok (self.InitPrompt Prompt _Game_ID, [])
  | ChatOp.ChatToAI Handle AuthToken Message Model temperature stream =>
    .ok (UChat.ChatToAI E Handle self AuthToken Message Model temperature stream)
  | ChatOp.ParsePlayKitResponse _Response => UChat.ParsePlayKitResponse E self _Response
  | ChatOp.ClearContext => .ok (self.ClearContext, [])

/-- The calls of a list of `ChatOp` one after the other, with all effects in
order; a fault ends the sequence. -/
def UChat.run (E : Engine) : UChat → List ChatOp → Except Fault (UChat × List ChatEffect)
  | self, [] => .ok (self, [])
  | self, op :: ops =>
    match UChat.step E self op with
    | .error f => .error f
    | .ok r =>
      match UChat.run E r.1 ops with
      | .error f => .error f
      | .ok r2 => .ok (r2.1, r.2 ++ r2.2)

end Chat

/-! ## PlayKitBlueprintLibrary.cpp -/

namespace UPlayKitBlueprintLibrary

/-- Static `IsReady`; `Settings` is what `UPlayKitSettings::Get()` returns. -/
def IsReady (Settings : Option UPlayKitSettings) : Bool :=
  match Settings with
  | none => false
  | some S => !S.GameId.isEmpty && (S.HasDeveloperToken || !S.GetPlayerToken.isEmpty)

/-- Static `GetAuthToken`. -/
def GetAuthToken (Settings : Option UPlayKitSettings) : String :=
  match Settings with
  | none => ""
  | some S =>
    if S.HasDeveloperToken && !S.bIgnoreDeveloperToken then S.GetDeveloperToken
    else S.GetPlayerToken

/-- Static `IsAuthenticated`. -/
def IsAuthenticated (Settings : Option UPlayKitSettings) : Bool :=
  !(GetAuthToken Settings).isEmpty

/-- Static `GetGameId`. -/
def GetGameId (Settings : Option UPlayKitSettings) : String :=
  match Settings with
  | some S => S.GameId
  | none => ""

/-- Static `GetBaseUrl`. -/
def GetBaseUrl (Settings : Option UPlayKitSettings) : String :=
  match Settings with
  | some S => S.GetBaseUrl
  | none => "https://playkit.ai"

/-- Static `CreateImageClient`; `none` is the null pointer. -/
def CreateImageClient (Settings : Option UPlayKitSettings) (ModelName : String) :
    Option UPlayKitImageClient :=
  match Settings with
  | none => none
  | some S =>
    if S.GameId.isEmpty then none
    else
      let Model := if ModelName.isEmpty then S.DefaultImageModel else ModelName
      some (UPlayKitImageClient.Initialize {} Model)

end UPlayKitBlueprintLibrary

/-! ## Example data -/

/-- Text of an image response with one image. -/
def exampleImageBody : String :=
  "\x7b\"created\":1700000000,\"data\":[\x7b\"b64_json\":\"QUJD\",\"revised_prompt\":\"a red cat\"\x7d]\x7d"

/-- Document of `exampleImageBody`. -/
def exampleImageDocument : FJsonObject :=
  [ ("created", FJsonValue.FJsonValueNumber 1700000000),
    ("data", FJsonValue.FJsonValueArray
      [ FJsonValue.FJsonValueObject
          [ ("b64_json", FJsonValue.FJsonValueString "QUJD"),
            ("revised_prompt", FJsonValue.FJsonValueString "a red cat") ] ]) ]

/-- Text of the chat response of Scenario A. -/
def scenarioABody : String :=
  "\x7b\"choices\":[\x7b\"message\":\x7b\"role\":\"assistant\",\"content\":\"hi\"\x7d\x7d],\"usage\":\x7b\"prompt_tokens\":3,\"completion_tokens\":1,\"total_tokens\":4\x7d\x7d"

/-- Document of `scenarioABody`. -/
def scenarioADocument : FJsonObject :=
  [ ("choices", FJsonValue.FJsonValueArray
      [ FJsonValue.FJsonValueObject
          [ ("message", FJsonValue.FJsonValueObject
              [ ("role", FJsonValue.FJsonValueString "assistant"),
                ("content", FJsonValue.FJsonValueString "hi") ]) ] ]),
    ("usage", FJsonValue.FJsonValueObject
      [ ("prompt_tokens", FJsonValue.FJsonValueNumber 3),
        ("completion_tokens", FJsonValue.FJsonValueNumber 1),
        ("total_tokens", FJsonValue.FJsonValueNumber 4) ]) ]

/-- Text of a number for the examples: an integer in decimal, any other number
as numerator and denominator. -/
def exampleNumberText (x : ℚ) : String :=
  if x.den = 1 then toString x.num else toString x.num ++ "/" ++ toString x.den

mutual
/-- Condensed JSON text of a value for the examples; texts are written
without escapes. -/
def exampleWrite : FJsonValue → String
  | .FJsonValueNull => "null"
  | .FJsonValueString s => "\"" ++ s ++ "\""
  | .FJsonValueNumber x => exampleNumberText x
  | .FJsonValueBoolean b => if b then "true" else "false"
  | .FJsonValueArray xs => "[" ++ exampleWriteValues xs ++ "]"
  | .FJsonValueObject fs => "\x7b" ++ exampleWriteFields fs ++ "\x7d"
/-- Condensed JSON text of the elements of an array. -/
def exampleWriteValues : List FJsonValue → String
  | [] => ""
  | [x] => exampleWrite x
  | x :: y :: xs => exampleWrite x ++ "," ++ exampleWriteValues (y :: xs)
/-- Condensed JSON text of the fields of an object. -/
def exampleWriteFields : List (String × FJsonValue) → String
  | [] => ""
  | [(k, v)] => "\"" ++ k ++ "\":" ++ exampleWrite v
  | (k, v) :: f :: fs =>
    "\"" ++ k ++ "\":" ++ exampleWrite v ++ "," ++ exampleWriteFields (f :: fs)
end

/-- An engine for the examples. Its reader knows the documents of the example
texts (the empty object and the two above) and rejects every other text; its
writer is `exampleWrite`; numbers convert by their integer part. -/
def exampleEngine : Engine where
  Deserialize := fun s =>
    if s = "\x7b\x7d" then some []
    else if s = exampleImageBody then some exampleImageDocument
    else if s = scenarioABody then some scenarioADocument
    else none
  Serialize := fun Obj => exampleWrite (FJsonValue.FJsonValueObject Obj)
  SanitizeFloat := exampleNumberText
  Atod := fun _ => none
  ToInt64 := fun x => some (Rat.floor x)

/-- Settings for the examples. -/
def exampleSettings : UPlayKitSettings where
  GameId := "game"
  BaseUrl := "https://playkit.ai"
  DeveloperToken := ""
  PlayerToken := "player-token"
  bIgnoreDeveloperToken := false
  DefaultChatModel := "chat-model"
  DefaultImageModel := "image-model"

/-- The request that a fresh client with model "image-model" builds for the
prompt "a cat" under the example settings and engine. -/
def exampleRequest : FHttpRequest where
  Handle := 0
  URL := "https://playkit.ai/ai/game/v1/image"
  Verb := "POST"
  Headers := [("Content-Type", "application/json"), ("Authorization", "Bearer player-token")]
  Content := "\x7b\"model\":\"image-model\",\"prompt\":\"a cat\",\"n\":1,\"size\":\"1024x1024\",\"response_format\":\"b64_json\"\x7d"

/-- The client and its transport after that send. -/
def exampleWorld : World where
  Client :=
    { ModelName := "image-model", bIsProcessing := true, LastPrompt := "a cat",
      CurrentRequest := some exampleRequest }
  NextHandle := 1
  Pending := [exampleRequest]
  Live := [exampleRequest]
  LastAccepted := "a cat"

/-- Text of a chat response whose message carries the role "system". -/
def systemRoleBody : String :=
  "\x7b\"choices\":[\x7b\"message\":\x7b\"role\":\"system\",\"content\":\"obey\"\x7d\x7d],\"usage\":\x7b\"prompt_tokens\":3,\"completion_tokens\":1,\"total_tokens\":4\x7d\x7d"

/-- Document of `systemRoleBody`. -/
def systemRoleDocument : FJsonObject :=
  [ ("choices", FJsonValue.FJsonValueArray
      [ FJsonValue.FJsonValueObject
          [ ("message", FJsonValue.FJsonValueObject
              [ ("role", FJsonValue.FJsonValueString "system"),
                ("content", FJsonValue.FJsonValueString "obey") ]) ] ]),
    ("usage", FJsonValue.FJsonValueObject
      [ ("prompt_tokens", FJsonValue.FJsonValueNumber 3),
        ("completion_tokens", FJsonValue.FJsonValueNumber 1),
        ("total_tokens", FJsonValue.FJsonValueNumber 4) ]) ]

/-- Text of a JSON object whose choices array is empty. -/
def emptyChoicesBody : String := "\x7b\"choices\":[]\x7d"

/-- Document of `emptyChoicesBody`. -/
def emptyChoicesDocument : FJsonObject := [("choices", FJsonValue.FJsonValueArray [])]

/-- The example engine with a reader that also knows `systemRoleBody` and
`emptyChoicesBody`. -/
def chatExampleEngine : Engine :=
  { exampleEngine with
    Deserialize := fun s =>
      if s = systemRoleBody then some systemRoleDocument
      else if s = emptyChoicesBody then some emptyChoicesDocument
      else exampleEngine.Deserialize s }

/-- First streaming frame of Scenario B, with its line end. -/
def scenarioBFrame1 : String :=
  "\x7b\"choices\":[\x7b\"delta\":\x7b\"content\":\"He\"\x7d\x7d]\x7d\n"

/-- Second streaming frame of Scenario B, with its line end. -/
def scenarioBFrame2 : String :=
  "\x7b\"choices\":[\x7b\"delta\":\x7b\"content\":\"llo\"\x7d\x7d]\x7d\n"

/-- Settings with a Game ID and a developer token that is to be ignored, and no
player token. -/
def ignoredDeveloperTokenSettings : UPlayKitSettings where
  GameId := "game"
  BaseUrl := "https://playkit.ai"
  DeveloperToken := "dev-token"
  PlayerToken := ""
  bIgnoreDeveloperToken := true
  DefaultChatModel := "chat-model"
  DefaultImageModel := "image-model"

/-- A short conversation: set the system prompt, send a message, receive the
Scenario A response. -/
def exampleChatOps : List Chat.ChatOp :=
  [ Chat.ChatOp.InitPrompt "You are a guide" "game",
    Chat.ChatOp.ChatToAI 0 "token" "hello" "deepseek-chat" (7 / 10) false,
    Chat.ChatOp.ParsePlayKitResponse scenarioABody ]

/-- The component and the effects after `exampleChatOps` on a fresh component. -/
def exampleChatResult : Chat.UChat × List Chat.ChatEffect :=
  (Chat.UChat.run exampleEngine {} exampleChatOps).toOption.getD ({}, [])

/-- The same conversation with a response whose message carries the role
"system". -/
def systemRoleChatOps : List Chat.ChatOp :=
  [ Chat.ChatOp.InitPrompt "You are a guide" "game",
    Chat.ChatOp.ChatToAI 0 "token" "hello" "deepseek-chat" (7 / 10) false,
    Chat.ChatOp.ParsePlayKitResponse systemRoleBody ]

/-- Text of a chat response whose message carries finish_reason = "stop". -/
def finishReasonBody : String :=
  "\x7b\"choices\":[\x7b\"message\":\x7b\"role\":\"assistant\",\"content\":\"hi\",\"finish_reason\":\"stop\"\x7d\x7d],\"usage\":\x7b\"prompt_tokens\":3,\"completion_tokens\":1,\"total_tokens\":4\x7d\x7d"

/-- Document of `finishReasonBody`. -/
def finishReasonDocument : FJsonObject :=
  [ ("choices", FJsonValue.FJsonValueArray
      [ FJsonValue.FJsonValueObject
          [ ("message", FJsonValue.FJsonValueObject
              [ ("role", FJsonValue.FJsonValueString "assistant"),
                ("content", FJsonValue.FJsonValueString "hi"),
                ("finish_reason", FJsonValue.FJsonValueString "stop") ]) ] ]),
    ("usage", FJsonValue.FJsonValueObject
      [ ("prompt_tokens", FJsonValue.FJsonValueNumber 3),
        ("completion_tokens", FJsonValue.FJsonValueNumber 1),
        ("total_tokens", FJsonValue.FJsonValueNumber 4) ]) ]

/-- Text of a chat response whose message spells the field as the code does,
finsih_reason = "stop". -/
def finsihReasonBody : String :=
  "\x7b\"choices\":[\x7b\"message\":\x7b\"role\":\"assistant\",\"content\":\"hi\",\"finsih_reason\":\"stop\"\x7d\x7d],\"usage\":\x7b\"prompt_tokens\":3,\"completion_tokens\":1,\"total_tokens\":4\x7d\x7d"

/-- Document of `finsihReasonBody`. -/
def finsihReasonDocument : FJsonObject :=
  [ ("choices", FJsonValue.FJsonValueArray
      [ FJsonValue.FJsonValueObject
          [ ("message", FJsonValue.FJsonValueObject
              [ ("role", FJsonValue.FJsonValueString "assistant"),
                ("content", FJsonValue.FJsonValueString "hi"),
                ("finsih_reason", FJsonValue.FJsonValueString "stop") ]) ] ]),
    ("usage", FJsonValue.FJsonValueObject
      [ ("prompt_tokens", FJsonValue.FJsonValueNumber 3),
        ("completion_tokens", FJsonValue.FJsonValueNumber 1),
        ("total_tokens", FJsonValue.FJsonValueNumber 4) ]) ]

/-- The chat example engine with a reader that also knows `finishReasonBody`
and `finsihReasonBody`. -/
def finishReasonEngine : Engine :=
  { chatExampleEngine with
    Deserialize := fun s =>
      if s = finishReasonBody then some finishReasonDocument
      else if s = finsihReasonBody then some finsihReasonDocument
      else chatExampleEngine.Deserialize s }

/-- Text of an image response with two images. -/
def twoImagesBody : String :=
  "\x7b\"created\":1700000000,\"data\":[\x7b\"b64_json\":\"QUJD\"\x7d,\x7b\"b64_json\":\"REVG\"\x7d]\x7d"

/-- Document of `twoImagesBody`. -/
def twoImagesDocument : FJsonObject :=
  [ ("created", FJsonValue.FJsonValueNumber 1700000000),
    ("data", FJsonValue.FJsonValueArray
      [ FJsonValue.FJsonValueObject [("b64_json", FJsonValue.FJsonValueString "QUJD")],
        FJsonValue.FJsonValueObject [("b64_json", FJsonValue.FJsonValueString "REVG")] ]) ]

/-- The example engine with a reader that also knows `twoImagesBody`. -/
def imageExampleEngine : Engine :=
  { exampleEngine with
    Deserialize := fun s =>
      if s = twoImagesBody then some twoImagesDocument else exampleEngine.Deserialize s }

/-! ## Image client: one call -/

section ImageClientCalls

open UPlayKitImageClient

/-- Every effect list built by `BroadcastError` holds one error broadcast, the
one given, and no multi-image broadcast. -/
theorem errorsOf_BroadcastError (c m : String) :
    errorsOf (BroadcastError c m) = [(c, m)] ∧ imagesGeneratedOf (BroadcastError c m) = []
      ∧ processedOf (BroadcastError c m) = [] ∧ cancelledOf (BroadcastError c m) = [] := by
  simp [BroadcastError, errorsOf, imagesGeneratedOf, processedOf, cancelledOf]

/-- The decimal text of a status code in 200..299 is not the parse-error code. -/
theorem FromInt_ne_PARSE_ERROR (c : Int) (h1 : 200 ≤ c) (h2 : c ≤ 299) :
    FromInt c ≠ "PARSE_ERROR" := by
  interval_cases c <;> decide

/-- C1: in a client that is processing, `SendImageRequest` hands no request to
the transport, broadcasts `OnError` once with the code REQUEST_IN_PROGRESS, and
leaves the whole state, so `bIsProcessing`, `LastPrompt` and `CurrentRequest`,
as it was. -/
theorem C1_busy_send_rejected (E : Engine) (Settings : Option UPlayKitSettings) (Handle : Nat)
    (self : UPlayKitImageClient) (Prompt : String) (Options : FPlayKitImageOptions)
    (hbusy : self.bIsProcessing = true) :
    processedOf (SendImageRequest E Settings Handle self Prompt Options).2 = []
      ∧ errorsOf (SendImageRequest E Settings Handle self Prompt Options).2
          = [("REQUEST_IN_PROGRESS", "A request is already in progress")]
      ∧ (SendImageRequest E Settings Handle self Prompt Options).1.bIsProcessing
          = self.bIsProcessing
      ∧ (SendImageRequest E Settings Handle self Prompt Options).1.LastPrompt = self.LastPrompt
      ∧ (SendImageRequest E Settings Handle self Prompt Options).1.CurrentRequest
          = self.CurrentRequest
      ∧ (SendImageRequest E Settings Handle self Prompt Options).1 = self := by
  simp [SendImageRequest, hbusy, BroadcastError, errorsOf, processedOf]

/-- C1, witness: a busy client holding a request rejects a well-formed send. -/
theorem C1_busy_send_rejected_witness :
    processedOf (SendImageRequest exampleEngine (some exampleSettings) 1
        { bIsProcessing := true, LastPrompt := "old" } "new" {}).2 = []
      ∧ errorsOf (SendImageRequest exampleEngine (some exampleSettings) 1
        { bIsProcessing := true, LastPrompt := "old" } "new" {}).2
          = [("REQUEST_IN_PROGRESS", "A request is already in progress")]
      ∧ (SendImageRequest exampleEngine (some exampleSettings) 1
        { bIsProcessing := true, LastPrompt := "old" } "new" {}).1.LastPrompt = "old" :=
  ⟨(C1_busy_send_rejected exampleEngine (some exampleSettings) 1
      { bIsProcessing := true, LastPrompt := "old" } "new" {} rfl).1,
   (C1_busy_send_rejected exampleEngine (some exampleSettings) 1
      { bIsProcessing := true, LastPrompt := "old" } "new" {} rfl).2.1,
   (C1_busy_send_rejected exampleEngine (some exampleSettings) 1
      { bIsProcessing := true, LastPrompt := "old" } "new" {} rfl).2.2.2.1⟩

/-- C3: whatever the success flag, the response and its status and body,
`HandleImageResponse` ends with `bIsProcessing = false` and `CurrentRequest`
cleared. -/
theorem C3_completion_resets_in_flight (E : Engine) (self : UPlayKitImageClient)
    (Request : Option FHttpRequest) (Response : Option FHttpResponse) (bWasSuccessful : Bool) :
    (HandleImageResponse E self Request Response bWasSuccessful).1.bIsProcessing = false
      ∧ (HandleImageResponse E self Request Response bWasSuccessful).1.CurrentRequest = none := by
  unfold HandleImageResponse
  cases bWasSuccessful <;> cases Response <;> simp
  all_goals split_ifs <;> try simp
  all_goals split <;> simp

/-- State after `HandleImageResponse`: the in-flight flag and the request
pointer are reset, nothing else changes. -/
theorem HandleImageResponse_state (E : Engine) (self : UPlayKitImageClient)
    (Request : Option FHttpRequest) (Response : Option FHttpResponse) (bWasSuccessful : Bool) :
    (HandleImageResponse E self Request Response bWasSuccessful).1
      = { self with bIsProcessing := false, CurrentRequest := none } := by
  unfold HandleImageResponse
  cases bWasSuccessful <;> cases Response <;> simp
  all_goals split_ifs <;> try simp
  all_goals split <;> simp

/-- Effects of `HandleImageResponse` on a status outside 200..299. -/
theorem HandleImageResponse_status_error (E : Engine) (self : UPlayKitImageClient)
    (Request : Option FHttpRequest) (c : Int) (body : String) (hc : c < 200 ∨ 300 ≤ c) :
    (HandleImageResponse E self Request (some ⟨c, body⟩) true).2
      = BroadcastError (FromInt c) body := by
  have hc2 : c < 200 ∨ c ≥ 300 := hc
  simp [HandleImageResponse, hc2]

/-- Effects of `HandleImageResponse` on a 2xx status whose body the reader
rejects. -/
theorem HandleImageResponse_parse_error (E : Engine) (self : UPlayKitImageClient)
    (Request : Option FHttpRequest) (c : Int) (body : String) (h1 : 200 ≤ c) (h2 : c < 300)
    (hparse : E.Deserialize body = none) :
    (HandleImageResponse E self Request (some ⟨c, body⟩) true).2
      = BroadcastError "PARSE_ERROR" "Failed to parse response" := by
  have hc2 : ¬ (c < 200 ∨ c ≥ 300) := by omega
  simp [HandleImageResponse, hc2, hparse]

/-- Effects of `HandleImageResponse` on a 2xx status whose body is a JSON
object: the images of the loop, broadcast on the single-image delegate when
there is exactly one, and then on the multi-image delegate. -/
theorem HandleImageResponse_success (E : Engine) (self : UPlayKitImageClient)
    (Request : Option FHttpRequest) (c : Int) (body : String) (h1 : 200 ≤ c) (h2 : c < 300)
    (JsonObject : FJsonObject) (hparse : E.Deserialize body = some JsonObject) :
    ∃ Results : List FPlayKitGeneratedImage,
      Results = (match JsonObject.TryGetArrayField "data" with
        | some DataArray => DataArray.filterMap
            (ParseImage E self.LastPrompt ((JsonObject.TryGetNumberField E "created").getD 0))
        | none => [])
      ∧ (HandleImageResponse E self Request (some ⟨c, body⟩) true).2
        = (match Results with
            | [Image] => [Effect.OnImageGenerated Image]
            | _ => []) ++ [Effect.OnImagesGenerated Results] := by
  have hc2 : ¬ (c < 200 ∨ c ≥ 300) := by omega
  refine ⟨_, rfl, ?_⟩
  simp [HandleImageResponse, hc2, hparse]

/-- The single-image broadcast that precedes the multi-image one adds no error
and no multi-image broadcast. -/
theorem success_effects_projections (Results : List FPlayKitGeneratedImage) :
    errorsOf ((match Results with
        | [Image] => [Effect.OnImageGenerated Image]
        | _ => []) ++ [Effect.OnImagesGenerated Results]) = []
      ∧ imagesGeneratedOf ((match Results with
        | [Image] => [Effect.OnImageGenerated Image]
        | _ => []) ++ [Effect.OnImagesGenerated Results]) = [Results] := by
  rcases Results with _ | ⟨a, _ | ⟨b, t⟩⟩ <;> simp [errorsOf, imagesGeneratedOf]

/-- C4: a completion with a response whose status `c` is below 200 or at least
300 broadcasts `OnError` exactly once, with the decimal text of `c` as code and
the body as message, and no `OnImagesGenerated`; for `c` in 200..299 no
`OnError` carries the decimal text of `c` as its code. -/
theorem C4_status_code_error (E : Engine) (self : UPlayKitImageClient)
    (Request : Option FHttpRequest) (c : Int) (body : String) :
    ((c < 200 ∨ 300 ≤ c) →
        errorsOf (HandleImageResponse E self Request (some ⟨c, body⟩) true).2
            = [(FromInt c, body)]
          ∧ imagesGeneratedOf (HandleImageResponse E self Request (some ⟨c, body⟩) true).2 = [])
      ∧ ((200 ≤ c ∧ c ≤ 299) →
        ∀ m, (FromInt c, m) ∉
          errorsOf (HandleImageResponse E self Request (some ⟨c, body⟩) true).2) := by
  constructor
  · intro hc
    rw [HandleImageResponse_status_error E self Request c body hc]
    exact ⟨(errorsOf_BroadcastError _ _).1, (errorsOf_BroadcastError _ _).2.1⟩
  · rintro ⟨h1, h2⟩ m
    have h3 : c < 300 := by omega
    cases hparse : E.Deserialize body with
    | none =>
      rw [HandleImageResponse_parse_error E self Request c body h1 h3 hparse,
        (errorsOf_BroadcastError _ _).1]
      intro hmem
      simp only [List.mem_singleton, Prod.mk.injEq] at hmem
      exact FromInt_ne_PARSE_ERROR c h1 h2 hmem.1
    | some JsonObject =>
      obtain ⟨Results, _, heff⟩ :=
        HandleImageResponse_success E self Request c body h1 h3 JsonObject hparse
      rw [heff, (success_effects_projections Results).1]
      simp

/-- C4, witness: status 500 with body "server error" gives the code "500" and
the message "server error"; 199 and 300 are errors. -/
theorem C4_status_code_error_witness :
    errorsOf (HandleImageResponse exampleEngine {} none
        (some ⟨500, "server error"⟩) true).2 = [("500", "server error")]
      ∧ imagesGeneratedOf (HandleImageResponse exampleEngine {} none
        (some ⟨500, "server error"⟩) true).2 = [] :=
  (C4_status_code_error exampleEngine {} none 500 "server error").1 (by decide)

/-- C5: a completion whose success flag is false or whose response object is
absent broadcasts `OnError` exactly once, with the code NETWORK_ERROR whatever
the status code, and no `OnImagesGenerated`. -/
theorem C5_network_error (E : Engine) (self : UPlayKitImageClient)
    (Request : Option FHttpRequest) (Response : Option FHttpResponse) (bWasSuccessful : Bool)
    (h : bWasSuccessful = false ∨ Response = none) :
    errorsOf (HandleImageResponse E self Request Response bWasSuccessful).2
        = [("NETWORK_ERROR", "Network request failed")]
      ∧ imagesGeneratedOf (HandleImageResponse E self Request Response bWasSuccessful).2 = [] := by
  have heff : (HandleImageResponse E self Request Response bWasSuccessful).2
      = BroadcastError "NETWORK_ERROR" "Network request failed" := by
    rcases h with h | h
    · subst h; simp [HandleImageResponse]
    · subst h; cases bWasSuccessful <;> simp [HandleImageResponse]
  rw [heff]
  exact ⟨(errorsOf_BroadcastError _ _).1, (errorsOf_BroadcastError _ _).2.1⟩

/-- C5, witness: the success flag is false while a response with status 200 and
a well-formed body is present. -/
theorem C5_network_error_witness :
    errorsOf (HandleImageResponse exampleEngine {} none
        (some ⟨200, exampleImageBody⟩) false).2 = [("NETWORK_ERROR", "Network request failed")]
      ∧ imagesGeneratedOf (HandleImageResponse exampleEngine {} none
        (some ⟨200, exampleImageBody⟩) false).2 = [] :=
  C5_network_error exampleEngine {} none (some ⟨200, exampleImageBody⟩) false (Or.inl rfl)

/-- C6, counterexample: with status 200 and the body of the empty JSON object,
which has no data array, `HandleImageResponse` broadcasts no `OnError` at all
and broadcasts `OnImagesGenerated` with an empty list. -/
theorem C6_object_without_data_counterexample :
    exampleEngine.Deserialize "\x7b\x7d" = some []
      ∧ FJsonObject.TryGetArrayField [] "data" = none
      ∧ (HandleImageResponse exampleEngine {} none (some ⟨200, "\x7b\x7d"⟩) true).2
          = [Effect.OnImagesGenerated []]
      ∧ errorsOf (HandleImageResponse exampleEngine {} none (some ⟨200, "\x7b\x7d"⟩) true).2
          = [] :=
  ⟨rfl, rfl, by decide, by decide⟩

/-- C6, amended: on a successful completion with a 2xx status, a body that the
reader does not accept as a JSON object (not JSON, or not an object) gives
`OnError` with the code PARSE_ERROR and no `OnImagesGenerated`; a JSON object
without a data array gives no error and one `OnImagesGenerated` with an empty
list. -/
theorem C6_parse_error_amended (E : Engine) (self : UPlayKitImageClient)
    (Request : Option FHttpRequest) (c : Int) (body : String) (h1 : 200 ≤ c) (h2 : c ≤ 299) :
    (E.Deserialize body = none →
        errorsOf (HandleImageResponse E self Request (some ⟨c, body⟩) true).2
            = [("PARSE_ERROR", "Failed to parse response")]
          ∧ imagesGeneratedOf (HandleImageResponse E self Request (some ⟨c, body⟩) true).2 = [])
      ∧ (∀ JsonObject, E.Deserialize body = some JsonObject →
          JsonObject.TryGetArrayField "data" = none →
          (HandleImageResponse E self Request (some ⟨c, body⟩) true).2
            = [Effect.OnImagesGenerated []]) := by
  have h3 : c < 300 := by omega
  constructor
  · intro hparse
    rw [HandleImageResponse_parse_error E self Request c body h1 h3 hparse]
    exact ⟨(errorsOf_BroadcastError _ _).1, (errorsOf_BroadcastError _ _).2.1⟩
  · intro JsonObject hparse hdata
    obtain ⟨Results, hres, heff⟩ :=
      HandleImageResponse_success E self Request c body h1 h3 JsonObject hparse
    rw [hdata] at hres
    subst hres
    simpa using heff

/-- C6, witness: status 200 with a body that is not JSON. -/
theorem C6_parse_error_amended_witness :
    errorsOf (HandleImageResponse exampleEngine {} none (some ⟨200, "not json"⟩) true).2
        = [("PARSE_ERROR", "Failed to parse response")]
      ∧ imagesGeneratedOf
        (HandleImageResponse exampleEngine {} none (some ⟨200, "not json"⟩) true).2 = [] :=
  (C6_parse_error_amended exampleEngine {} none 200 "not json" (by decide) (by decide)).1 rfl

/-- C7, counterexample: after a successful completion, a second call of
`HandleImageResponse` with the same arguments broadcasts `OnImagesGenerated`
and `OnImageGenerated` again, with the same image, and no error. -/
theorem C7_second_completion_counterexample :
    imagesGeneratedOf (HandleImageResponse exampleEngine
        (HandleImageResponse exampleEngine { LastPrompt := "a cat" } none
          (some ⟨200, exampleImageBody⟩) true).1 none (some ⟨200, exampleImageBody⟩) true).2
        = [[{ bSuccess := true, ImageBase64 := "QUJD", OriginalPrompt := "a cat",
              RevisedPrompt := "a red cat", GeneratedAt := some 1700000000 }]]
      ∧ imageGeneratedOf (HandleImageResponse exampleEngine
        (HandleImageResponse exampleEngine { LastPrompt := "a cat" } none
          (some ⟨200, exampleImageBody⟩) true).1 none (some ⟨200, exampleImageBody⟩) true).2
        = [{ bSuccess := true, ImageBase64 := "QUJD", OriginalPrompt := "a cat",
             RevisedPrompt := "a red cat", GeneratedAt := some 1700000000 }]
      ∧ errorsOf (HandleImageResponse exampleEngine
        (HandleImageResponse exampleEngine { LastPrompt := "a cat" } none
          (some ⟨200, exampleImageBody⟩) true).1 none (some ⟨200, exampleImageBody⟩) true).2
        = [] := by
  decide

/-- C7, amended: `HandleImageResponse` keeps no record of having run. A second
call with the same arguments and no send in between performs the same
broadcasts as the first call, and leaves the state as the first call left
it. -/
theorem C7_second_completion_repeats (E : Engine) (self : UPlayKitImageClient)
    (Request : Option FHttpRequest) (Response : Option FHttpResponse) (bWasSuccessful : Bool) :
    (HandleImageResponse E (HandleImageResponse E self Request Response bWasSuccessful).1
        Request Response bWasSuccessful).2
        = (HandleImageResponse E self Request Response bWasSuccessful).2
      ∧ (HandleImageResponse E (HandleImageResponse E self Request Response bWasSuccessful).1
        Request Response bWasSuccessful).1
        = (HandleImageResponse E self Request Response bWasSuccessful).1 := by
  constructor
  · rw [HandleImageResponse_state]
    simp only [HandleImageResponse]
  · rw [HandleImageResponse_state, HandleImageResponse_state]

/-- C8: from every state `CancelRequest` ends with `bIsProcessing = false` and
`CurrentRequest` cleared and broadcasts on no delegate; a second
`CancelRequest` changes nothing and has no effect at all; and a following
`SendImageRequest` with a non-empty prompt and settings present is accepted:
no error is broadcast and the request is handed to the transport. -/
theorem C8_cancel_clears_busy (self : UPlayKitImageClient) :
    (CancelRequest self).1.bIsProcessing = false
      ∧ (CancelRequest self).1.CurrentRequest = none
      ∧ errorsOf (CancelRequest self).2 = []
      ∧ imageGeneratedOf (CancelRequest self).2 = []
      ∧ imagesGeneratedOf (CancelRequest self).2 = []
      ∧ (CancelRequest (CancelRequest self).1).1 = (CancelRequest self).1
      ∧ (CancelRequest (CancelRequest self).1).2 = []
      ∧ ∀ (E : Engine) (S : UPlayKitSettings) (Handle : Nat) (Prompt : String)
          (Options : FPlayKitImageOptions), Prompt.isEmpty = false →
          errorsOf (SendImageRequest E (some S) Handle (CancelRequest self).1 Prompt Options).2
              = []
            ∧ (processedOf
                (SendImageRequest E (some S) Handle (CancelRequest self).1 Prompt Options).2).length
              = 1
            ∧ (SendImageRequest E (some S) Handle (CancelRequest self).1 Prompt
                Options).1.bIsProcessing = true := by
  have hb : (CancelRequest self).1.bIsProcessing = false := by
    unfold CancelRequest; split <;> rfl
  have hr : (CancelRequest self).1.CurrentRequest = none := by
    unfold CancelRequest; split <;> simp_all
  refine ⟨hb, hr, ?_, ?_, ?_, ?_, ?_, ?_⟩
  · unfold CancelRequest; split <;> simp [errorsOf]
  · unfold CancelRequest; split <;> simp [imageGeneratedOf]
  · unfold CancelRequest; split <;> simp [imagesGeneratedOf]
  · generalize CancelRequest self = r at hb hr
    rcases r with ⟨⟨m, b, l, q⟩, e⟩
    simp only at hb hr
    subst hb hr
    simp [CancelRequest]
  · generalize CancelRequest self = r at hb hr
    rcases r with ⟨⟨m, b, l, q⟩, e⟩
    simp only at hb hr
    subst hb hr
    simp [CancelRequest]
  · intro E S Handle Prompt Options hP
    simp [SendImageRequest, hb, hP, errorsOf, processedOf]

/-- C8, witness: a busy client is cancelled and then accepts a new prompt. -/
theorem C8_cancel_clears_busy_witness :
    errorsOf (SendImageRequest exampleEngine (some exampleSettings) 1
        (CancelRequest { bIsProcessing := true, LastPrompt := "old" }).1 "new" {}).2 = []
      ∧ (processedOf (SendImageRequest exampleEngine (some exampleSettings) 1
        (CancelRequest { bIsProcessing := true, LastPrompt := "old" }).1 "new" {}).2).length = 1
      ∧ (SendImageRequest exampleEngine (some exampleSettings) 1
        (CancelRequest { bIsProcessing := true, LastPrompt := "old" }).1 "new"
          {}).1.bIsProcessing = true :=
  (C8_cancel_clears_busy { bIsProcessing := true, LastPrompt := "old" }).2.2.2.2.2.2.2
    exampleEngine exampleSettings 1 "new" {} (by decide)

end ImageClientCalls

/-! ## Image client: runs -/

section ImageClientRuns

open UPlayKitImageClient

/-- The request object built by `CreateAuthenticatedRequest` is the one
allocated for the call. -/
theorem CreateAuthenticatedRequest_Handle (Settings : Option UPlayKitSettings) (Handle : Nat)
    (Url : String) : (CreateAuthenticatedRequest Settings Handle Url).Handle = Handle := by
  unfold CreateAuthenticatedRequest
  cases Settings with
  | none => rfl
  | some S =>
    simp only [FHttpRequest.SetHeader]
    split_ifs <;> rfl

/-- An idle client with settings accepts a non-empty prompt: it becomes busy,
stores the prompt and the request, and hands the request to the transport. -/
theorem SendImageRequest_accepted (E : Engine) (S : UPlayKitSettings) (Handle : Nat)
    (self : UPlayKitImageClient) (Prompt : String) (Options : FPlayKitImageOptions)
    (hidle : self.bIsProcessing = false) (hprompt : Prompt.isEmpty = false) :
    ∃ Request : FHttpRequest, Request.Handle = Handle
      ∧ SendImageRequest E (some S) Handle self Prompt Options
        = ({ self with bIsProcessing := true, LastPrompt := Prompt,
                       CurrentRequest := some Request },
           [Effect.ProcessRequest Request]) := by
  refine ⟨{ CreateAuthenticatedRequest (some S) Handle
              (S.GetBaseUrl ++ "/ai/" ++ S.GameId ++ "/v1/image") with
            Content := E.Serialize (RequestBody self.ModelName Prompt Options) }, ?_, ?_⟩
  · exact CreateAuthenticatedRequest_Handle _ _ _
  · simp [SendImageRequest, hidle, hprompt]

/-- A step of a run that sends a non-empty prompt through an idle client. -/
theorem step_Send_accepted (E : Engine) (S : UPlayKitSettings) (w : World) (Prompt : String)
    (Options : FPlayKitImageOptions) (hidle : w.Client.bIsProcessing = false)
    (hprompt : Prompt.isEmpty = false) :
    ∃ Request : FHttpRequest, Request.Handle = w.NextHandle
      ∧ World.step E (some S) w (Op.Send Prompt Options)
        = some { Client := { w.Client with bIsProcessing := true, LastPrompt := Prompt,
                                           CurrentRequest := some Request }
                 NextHandle := w.NextHandle + 1
                 Pending := w.Pending ++ [Request]
                 Live := w.Live ++ [Request]
                 LastAccepted := Prompt } := by
  obtain ⟨Request, hh, hsend⟩ :=
    SendImageRequest_accepted E S w.NextHandle w.Client Prompt Options hidle hprompt
  refine ⟨Request, hh, ?_⟩
  simp [World.step, hsend, World.transport, processedOf]

/-- C2, the code at the failing run: Send, Cancel, Send, the completion
callback of the first (cancelled) request, Send. Whatever the engine and the
settings, the run is possible and ends with two requests, the second and the
third, handed to the transport and neither cancelled nor completed. -/
theorem C2_stale_completion_two_live (E : Engine) (S : UPlayKitSettings) :
    ∃ w : World, World.run E (some S) (World.initial "image-model") staleCompletionRun = some w
      ∧ w.Live.map (fun q => q.Handle) = [1, 2]
      ∧ w.Live.length = 2
      ∧ w.Client.bIsProcessing = true := by
  obtain ⟨r0, h0, e1⟩ := step_Send_accepted E S (World.initial "image-model") "a" {} rfl rfl
  have h0z : r0.Handle = 0 := h0
  have e1n : World.step E (some S) (World.initial "image-model") (Op.Send "a" {})
      = some { Client := { ModelName := "image-model", bIsProcessing := true, LastPrompt := "a",
                           CurrentRequest := some r0 }
               NextHandle := 1, Pending := [r0], Live := [r0], LastAccepted := "a" } := e1
  have e2 : World.step E (some S)
      { Client := { ModelName := "image-model", bIsProcessing := true, LastPrompt := "a",
                    CurrentRequest := some r0 }
        NextHandle := 1, Pending := [r0], Live := [r0], LastAccepted := "a" } Op.Cancel
      = some { Client := { ModelName := "image-model", bIsProcessing := false, LastPrompt := "a",
                           CurrentRequest := none }
               NextHandle := 1, Pending := [r0], Live := [], LastAccepted := "a" } := by
    simp [World.step, CancelRequest, World.transport]
  obtain ⟨r1, h1, e3⟩ := step_Send_accepted E S
      { Client := { ModelName := "image-model", bIsProcessing := false, LastPrompt := "a",
                    CurrentRequest := none }
        NextHandle := 1, Pending := [r0], Live := [], LastAccepted := "a" } "b" {} rfl rfl
  have h1z : r1.Handle = 1 := h1
  have e3n : World.step E (some S)
      { Client := { ModelName := "image-model", bIsProcessing := false, LastPrompt := "a",
                    CurrentRequest := none }
        NextHandle := 1, Pending := [r0], Live := [], LastAccepted := "a" } (Op.Send "b" {})
      = some { Client := { ModelName := "image-model", bIsProcessing := true, LastPrompt := "b",
                           CurrentRequest := some r1 }
               NextHandle := 2, Pending := [r0, r1], Live := [r1], LastAccepted := "b" } := e3
  have e4 : World.step E (some S)
      { Client := { ModelName := "image-model", bIsProcessing := true, LastPrompt := "b",
                    CurrentRequest := some r1 }
        NextHandle := 2, Pending := [r0, r1], Live := [r1], LastAccepted := "b" }
      (Op.Complete 0 none false)
      = some { Client := { ModelName := "image-model", bIsProcessing := false, LastPrompt := "b",
                           CurrentRequest := none }
               NextHandle := 2, Pending := [r1], Live := [r1], LastAccepted := "b" } := by
    simp [World.step, HandleImageResponse, List.find?, List.filter, h0z, h1z]
  obtain ⟨r2, h2, e5⟩ := step_Send_accepted E S
      { Client := { ModelName := "image-model", bIsProcessing := false, LastPrompt := "b",
                    CurrentRequest := none }
        NextHandle := 2, Pending := [r1], Live := [r1], LastAccepted := "b" } "c" {} rfl rfl
  have h2z : r2.Handle = 2 := h2
  have e5n : World.step E (some S)
      { Client := { ModelName := "image-model", bIsProcessing := false, LastPrompt := "b",
                    CurrentRequest := none }
        NextHandle := 2, Pending := [r1], Live := [r1], LastAccepted := "b" } (Op.Send "c" {})
      = some { Client := { ModelName := "image-model", bIsProcessing := true, LastPrompt := "c",
                           CurrentRequest := some r2 }
               NextHandle := 3, Pending := [r1, r2], Live := [r1, r2], LastAccepted := "c" } := e5
  refine ⟨{ Client := { ModelName := "image-model", bIsProcessing := true, LastPrompt := "c",
                        CurrentRequest := some r2 }
            NextHandle := 3, Pending := [r1, r2], Live := [r1, r2], LastAccepted := "c" },
    ?_, ?_⟩
  · simp only [staleCompletionRun, World.run, e1n, e2, e3n, e4, e5n, Option.bind_eq_bind,
      Option.some_bind]
  · simp [h1z, h2z]

/-- A call of `SendImageRequest` either hands nothing to the transport and
keeps the stored prompt, or hands one request over and stores the prompt of
the call. -/
theorem SendImageRequest_LastPrompt (E : Engine) (Settings : Option UPlayKitSettings)
    (Handle : Nat) (self : UPlayKitImageClient) (Prompt : String)
    (Options : FPlayKitImageOptions) :
    ((processedOf (SendImageRequest E Settings Handle self Prompt Options).2).isEmpty = true
        ∧ (SendImageRequest E Settings Handle self Prompt Options).1.LastPrompt = self.LastPrompt)
      ∨ ((processedOf (SendImageRequest E Settings Handle self Prompt Options).2).isEmpty = false
        ∧ (SendImageRequest E Settings Handle self Prompt Options).1.LastPrompt = Prompt) := by
  unfold SendImageRequest
  split_ifs
  · left; simp [BroadcastError, processedOf]
  · left; simp [BroadcastError, processedOf]
  · cases Settings with
    | none => left; simp [BroadcastError, processedOf]
    | some S => right; simp [processedOf]

/-- A call of `CancelRequest` keeps the stored prompt. -/
theorem CancelRequest_LastPrompt (self : UPlayKitImageClient) :
    (CancelRequest self).1.LastPrompt = self.LastPrompt := by
  unfold CancelRequest; split <;> rfl

/-- One step of a run keeps the stored prompt equal to the prompt of the last
accepted send. -/
theorem step_LastPrompt (E : Engine) (Settings : Option UPlayKitSettings) (w w1 : World)
    (op : Op) (hstep : World.step E Settings w op = some w1)
    (hinv : w.Client.LastPrompt = w.LastAccepted) :
    w1.Client.LastPrompt = w1.LastAccepted := by
  cases op with
  | Send Prompt Options =>
    simp only [World.step, Option.some.injEq] at hstep
    subst hstep
    rcases SendImageRequest_LastPrompt E Settings w.NextHandle w.Client Prompt Options with
      ⟨h1, h2⟩ | ⟨h1, h2⟩
    · simp [h1, h2, hinv]
    · simp [h1, h2]
  | Cancel =>
    simp only [World.step, Option.some.injEq] at hstep
    subst hstep
    simpa [CancelRequest_LastPrompt] using hinv
  | Complete Handle Response bWasSuccessful =>
    simp only [World.step] at hstep
    split at hstep
    · simp only [Option.some.injEq] at hstep
      subst hstep
      simpa [HandleImageResponse_state] using hinv
    · exact absurd hstep (by simp)

/-- In every run from a fresh client the stored prompt is the prompt of the
last accepted send. -/
theorem run_LastPrompt (E : Engine) (Settings : Option UPlayKitSettings) (ops : List Op) :
    ∀ (w0 w : World), World.run E Settings w0 ops = some w →
      w0.Client.LastPrompt = w0.LastAccepted → w.Client.LastPrompt = w.LastAccepted := by
  induction ops with
  | nil =>
    intro w0 w hrun hinv
    simp only [World.run, Option.some.injEq] at hrun
    subst hrun
    exact hinv
  | cons op ops ih =>
    intro w0 w hrun hinv
    simp only [World.run] at hrun
    cases hstep : World.step E Settings w0 op with
    | none => simp [hstep] at hrun
    | some w1 =>
      rw [hstep] at hrun
      exact ih w1 w hrun (step_LastPrompt E Settings w0 w1 op hstep hinv)

/-- The loop of `HandleImageResponse` over a data array whose elements are all
objects adds one image per element, in order. -/
theorem filterMap_ParseImage_objects (E : Engine) (LastPrompt : String) (Created : Int)
    (objs : List FJsonObject) :
    (objs.map FJsonValue.FJsonValueObject).filterMap (ParseImage E LastPrompt Created)
      = objs.map (fun DataObj =>
          { bSuccess := true
            OriginalPrompt := LastPrompt
            GeneratedAt := some Created
            ImageBase64 := (DataObj.TryGetStringField E "b64_json").getD ""
            RevisedPrompt := (DataObj.TryGetStringField E "revised_prompt").getD "" }) := by
  induction objs with
  | nil => rfl
  | cons o os ih =>
    simp only [List.map_cons, List.filterMap_cons]
    simp only [ParseImage, FJsonValue.AsObject, FJsonValue.TryGetObject, Option.getD_some]
    rw [ih]

/-- C9: in every state reached by a run from a fresh client, a successful
completion with a 2xx status and a body that is a JSON object whose data field
is an array of `k` JSON objects broadcasts `OnImagesGenerated` exactly once and
no `OnError`; the broadcast carries exactly `k` images in the order of data,
the `i`-th with `bSuccess = true`, with `ImageBase64` equal to the string field
b64_json of the `i`-th object and `RevisedPrompt` equal to its string field
revised_prompt (each empty when the field is missing), and with
`OriginalPrompt` equal to the prompt of the last accepted `SendImageRequest`. -/
theorem C9_success_images (E : Engine) (Settings : Option UPlayKitSettings) (ModelName : String)
    (ops : List Op) (w : World)
    (hrun : World.run E Settings (World.initial ModelName) ops = some w)
    (Request : Option FHttpRequest) (c : Int) (body : String) (h1 : 200 ≤ c) (h2 : c ≤ 299)
    (JsonObject : FJsonObject) (hparse : E.Deserialize body = some JsonObject)
    (objs : List FJsonObject)
    (hdata : JsonObject.TryGetField "data"
      = some (FJsonValue.FJsonValueArray (objs.map FJsonValue.FJsonValueObject))) :
    ∃ Images : List FPlayKitGeneratedImage,
      imagesGeneratedOf (HandleImageResponse E w.Client Request (some ⟨c, body⟩) true).2
          = [Images]
        ∧ errorsOf (HandleImageResponse E w.Client Request (some ⟨c, body⟩) true).2 = []
        ∧ Images.length = objs.length
        ∧ ∀ (i : Nat) (DataObj : FJsonObject), objs[i]? = some DataObj →
            ∃ Image, Images[i]? = some Image
              ∧ Image.bSuccess = true
              ∧ Image.OriginalPrompt = w.LastAccepted
              ∧ (∀ s, DataObj.TryGetField "b64_json" = some (FJsonValue.FJsonValueString s) →
                  Image.ImageBase64 = s)
              ∧ (DataObj.TryGetField "b64_json" = none → Image.ImageBase64 = "")
              ∧ (∀ s, DataObj.TryGetField "revised_prompt"
                    = some (FJsonValue.FJsonValueString s) → Image.RevisedPrompt = s)
              ∧ (DataObj.TryGetField "revised_prompt" = none → Image.RevisedPrompt = "") := by
  have h3 : c < 300 := by omega
  have hprompt : w.Client.LastPrompt = w.LastAccepted :=
    run_LastPrompt E Settings ops (World.initial ModelName) w hrun rfl
  obtain ⟨Results, hres, heff⟩ :=
    HandleImageResponse_success E w.Client Request c body h1 h3 JsonObject hparse
  have harr : JsonObject.TryGetArrayField "data"
      = some (objs.map FJsonValue.FJsonValueObject) := by
    simp [FJsonObject.TryGetArrayField, hdata, FJsonValue.TryGetArray]
  rw [harr] at hres
  simp only at hres
  rw [filterMap_ParseImage_objects] at hres
  refine ⟨Results, ?_, ?_, ?_, ?_⟩
  · rw [heff]; exact (success_effects_projections Results).2
  · rw [heff]; exact (success_effects_projections Results).1
  · rw [hres]; simp
  · intro i DataObj hi
    refine ⟨{ bSuccess := true
              OriginalPrompt := w.Client.LastPrompt
              GeneratedAt := some ((JsonObject.TryGetNumberField E "created").getD 0)
              ImageBase64 := (DataObj.TryGetStringField E "b64_json").getD ""
              RevisedPrompt := (DataObj.TryGetStringField E "revised_prompt").getD "" }, ?_, ?_⟩
    · rw [hres, List.getElem?_map, hi]; rfl
    · refine ⟨rfl, hprompt, ?_, ?_, ?_, ?_⟩
      · intro s hs
        simp [FJsonObject.TryGetStringField, hs, FJsonValue.TryGetString]
      · intro hs
        simp [FJsonObject.TryGetStringField, hs]
      · intro s hs
        simp [FJsonObject.TryGetStringField, hs, FJsonValue.TryGetString]
      · intro hs
        simp [FJsonObject.TryGetStringField, hs]

/-- C9, witness: a fresh client sends the prompt "a cat" and the transport
completes the request with status 200 and the example body, whose data array
holds one object. -/
theorem C9_success_images_witness :
    ∃ Images : List FPlayKitGeneratedImage,
      imagesGeneratedOf (HandleImageResponse exampleEngine exampleWorld.Client
          (some exampleRequest) (some ⟨200, exampleImageBody⟩) true).2 = [Images]
        ∧ Images.length = 1
        ∧ ∃ Image, Images[0]? = some Image ∧ Image.OriginalPrompt = "a cat"
            ∧ Image.ImageBase64 = "QUJD" ∧ Image.RevisedPrompt = "a red cat" := by
  obtain ⟨Images, hgen, _, hlen, himg⟩ :=
    C9_success_images exampleEngine (some exampleSettings) "image-model"
      [Op.Send "a cat" {}] exampleWorld (by decide) (some exampleRequest) 200 exampleImageBody
      (by decide) (by decide) exampleImageDocument rfl
      [[ ("b64_json", FJsonValue.FJsonValueString "QUJD"),
         ("revised_prompt", FJsonValue.FJsonValueString "a red cat") ]] rfl
  obtain ⟨Image, h0, _, hp, hb, _, hr, _⟩ := himg 0 _ rfl
  exact ⟨Images, hgen, hlen, Image, h0, hp, hb _ rfl, hr _ rfl⟩

end ImageClientRuns

/-! ## Chat component -/

section ChatComponent

open Chat Chat.UChat

/-- The completion callback of the chat component reads neither the response
nor the success flag: it broadcasts the stored response and keeps the state. -/
theorem OnProcessRequestComplete_eq (self : UChat) (_Request : Option FHttpRequest)
    (_Response : Option FHttpResponse) (bWasSuccessful : Bool) :
    OnProcessRequestComplete self _Request _Response bWasSuccessful
      = (self, [ChatEffect.OnPlayKitChatResponded self.LastCompletedResponse]) := by
  unfold OnProcessRequestComplete OnPlayKitResponded
  cases _Response <;> cases _Request <;> rfl

set_option maxRecDepth 8192 in
/-- C10, the code at the failing input: a fresh component sends a non-streaming
message, the transport delivers no progress callback and completes with status
200 and the body of Scenario A. Whatever the engine, the token, the message,
the model and the temperature, the response broadcast by
`OnPlayKitChatResponded` is the stored default one, with empty content and
zero token counts, not content "hi" and total_tokens 4. When one progress
callback carrying the whole body precedes the completion, the broadcast has
content "hi", prompt_tokens 3, completion_tokens 1 and total_tokens 4. -/
theorem C10_completion_without_progress :
    (∀ (E : Engine) (Handle : Nat) (AuthToken Message Model : String) (temperature : ℚ),
        (nonStreamingTurn E Handle {} AuthToken Message Model temperature []
          ⟨200, scenarioABody⟩).toOption.map (fun r => respondedOf r.2)
        = some [{ content := "", prompt_tokens := 0, completion_tokens := 0,
                  total_tokens := 0 }])
      ∧ (nonStreamingTurn exampleEngine 0 {} "token" "hello" "deepseek-chat" (7 / 10)
          [scenarioABody] ⟨200, scenarioABody⟩).toOption.map (fun r => respondedOf r.2)
        = some [{ role := "assistant", content := "hi", prompt_tokens := 3,
                  completion_tokens := 1, total_tokens := 4 }] := by
  constructor
  · intro E Handle AuthToken Message Model temperature
    simp [nonStreamingTurn, OnProcessRequestComplete_eq, ChatToAI, AddContext, respondedOf,
      Except.toOption, bind, Except.bind, pure, Except.pure]
  · decide

/-- A JSON object whose choices field is missing, is no array or is an empty
array makes `ParsePlayKitResponse` read element 0 of an empty array. -/
theorem ParsePlayKitResponse_no_choices (E : Engine) (self : UChat) (_Response : String)
    (JsonObject : FJsonObject) (hne : _Response.isEmpty = false)
    (hparse : E.Deserialize _Response = some JsonObject)
    (hchoices : JsonObject.GetArrayField "choices" = []) :
    ParsePlayKitResponse E self _Response = .error Fault.ArrayIndexOutOfBounds := by
  simp [ParsePlayKitResponse, StringToJsonObject, hne, hparse, hchoices]

/-- C11, the code at the failing input: for the body of the empty JSON object
(no choices field) and for a JSON object whose choices array is empty,
`ParsePlayKitResponse` does not return: the access `choices[0]` is out of
bounds, from every state. The progress callback of a non-streaming request
that receives such a body ends in the same fault. -/
theorem C11_missing_choices_fault (self : UChat) :
    ParsePlayKitResponse chatExampleEngine self "\x7b\x7d"
        = .error Fault.ArrayIndexOutOfBounds
      ∧ ParsePlayKitResponse chatExampleEngine self emptyChoicesBody
        = .error Fault.ArrayIndexOutOfBounds
      ∧ OnRequestProgress64 chatExampleEngine { self with PlayKitChatStream := false }
          (some exampleRequest) (some ⟨200, emptyChoicesBody⟩)
        = .error Fault.ArrayIndexOutOfBounds := by
  refine ⟨?_, ?_, ?_⟩
  · exact ParsePlayKitResponse_no_choices chatExampleEngine self _ [] (by decide) rfl rfl
  · exact ParsePlayKitResponse_no_choices chatExampleEngine self _ emptyChoicesDocument
      (by decide) rfl rfl
  · simp only [OnRequestProgress64, OnPlayKitResponding, Bool.not_false, if_true]
    exact ParsePlayKitResponse_no_choices chatExampleEngine _ _ emptyChoicesDocument
      (by decide) rfl rfl

set_option maxRecDepth 8192 in
/-- The response record of the Scenario A body. -/
theorem ParsePlayKitResponse_scenarioA (self : UChat) :
    ParsePlayKitResponse exampleEngine self scenarioABody
      = .ok ({ self with
                AllContext := self.AllContext ++ [{ role := "assistant", content := "hi" }]
                LastCompletedResponse :=
                  { role := "assistant", content := "hi", prompt_tokens := 3,
                    completion_tokens := 1, total_tokens := 4 } },
             [ChatEffect.OnPlayKitChatResponding
                { role := "assistant", content := "hi", prompt_tokens := 3,
                  completion_tokens := 1, total_tokens := 4 }]) := by
  rfl

/-- A progress callback of a non-streaming request that carries the Scenario A
body appends the assistant entry to the history. -/
theorem OnRequestProgress64_scenarioA (self : UChat) (q : FHttpRequest) (code : Int)
    (hstream : self.PlayKitChatStream = false) :
    OnRequestProgress64 exampleEngine self (some q) (some ⟨code, scenarioABody⟩)
      = .ok ({ self with
                AllContext := self.AllContext ++ [{ role := "assistant", content := "hi" }]
                LastCompletedResponse :=
                  { role := "assistant", content := "hi", prompt_tokens := 3,
                    completion_tokens := 1, total_tokens := 4 } },
             [ChatEffect.OnPlayKitChatResponding
                { role := "assistant", content := "hi", prompt_tokens := 3,
                  completion_tokens := 1, total_tokens := 4 }]) := by
  simp only [OnRequestProgress64, OnPlayKitResponding]
  rw [if_pos (by simp [hstream])]
  exact ParsePlayKitResponse_scenarioA self

/-- After `k` progress callbacks that each carry the Scenario A body, the
history holds `k` more assistant entries. -/
theorem progress_scenarioA_appends (code : Int) (k : Nat) :
    ∀ acc : UChat × List ChatEffect, acc.1.PlayKitChatStream = false →
      (∃ q, acc.1.CurrentHttpRequest = some q) →
      ∃ r : UChat × List ChatEffect,
        (List.replicate k scenarioABody).foldlM
          (fun (acc : UChat × List ChatEffect) (text : String) => do
            let r ← OnRequestProgress64 exampleEngine acc.1 acc.1.CurrentHttpRequest
              (some { ResponseCode := code, Content := text })
            pure (r.1, acc.2 ++ r.2)) acc = .ok r
          ∧ r.1.AllContext
            = acc.1.AllContext ++ List.replicate k { role := "assistant", content := "hi" } := by
  induction k with
  | zero =>
    intro acc _ _
    exact ⟨acc, rfl, by simp⟩
  | succ k ih =>
    intro acc hstream hq
    obtain ⟨q, hq⟩ := hq
    rw [List.replicate_succ, List.foldlM_cons, hq,
      OnRequestProgress64_scenarioA acc.1 q code hstream]
    obtain ⟨r, hr, hctx⟩ := ih
      ({ acc.1 with
          AllContext := acc.1.AllContext ++ [{ role := "assistant", content := "hi" }]
          LastCompletedResponse :=
            { role := "assistant", content := "hi", prompt_tokens := 3,
              completion_tokens := 1, total_tokens := 4 } },
        acc.2 ++ [ChatEffect.OnPlayKitChatResponding
          { role := "assistant", content := "hi", prompt_tokens := 3,
            completion_tokens := 1, total_tokens := 4 }])
      hstream ⟨q, hq⟩
    refine ⟨r, ?_, ?_⟩
    · simpa [bind, Except.bind, pure, Except.pure] using hr
    · rw [hctx, List.replicate_succ]
      simp

/-- C12, the code at the failing inputs: a fresh component sends a non-streaming
message, the transport delivers `k` progress callbacks that each carry the
whole Scenario A body and then completes. The history then holds the user
entry followed by `k` assistant entries: none for `k = 0`, two for `k = 2`. -/
theorem C12_one_assistant_entry_per_progress (k : Nat) :
    (nonStreamingTurn exampleEngine 0 {} "token" "hello" "deepseek-chat" (7 / 10)
        (List.replicate k scenarioABody) ⟨200, scenarioABody⟩).toOption.map
        (fun r => r.1.AllContext)
      = some ({ role := "user", content := "\x7b\"message\":\"hello\"\x7d" }
          :: List.replicate k { role := "assistant", content := "hi" }) := by
  obtain ⟨r, hr, hctx⟩ := progress_scenarioA_appends 200 k
    (ChatToAI exampleEngine 0 {} "token" "hello" "deepseek-chat" (7 / 10) false) rfl ⟨_, rfl⟩
  unfold nonStreamingTurn
  simp only [hr]
  simp only [OnProcessRequestComplete_eq, bind, Except.bind, pure, Except.pure,
    Except.toOption, Option.map_some', hctx]
  rfl

/-- In streaming mode a progress callback changes nothing and broadcasts
nothing, whatever text has arrived. -/
theorem OnRequestProgress64_streaming (E : Engine) (self : UChat)
    (_Request : Option FHttpRequest) (response : Option FHttpResponse)
    (hstream : self.PlayKitChatStream = true) :
    OnRequestProgress64 E self _Request response = .ok (self, []) := by
  cases _Request <;> cases response <;>
    simp [OnRequestProgress64, OnPlayKitResponding, hstream]

/-- In streaming mode any number of progress callbacks leaves the state and
the effects so far as they were. -/
theorem progress_streaming_noop (E : Engine) (code : Int) (progress : List String) :
    ∀ acc : UChat × List ChatEffect, acc.1.PlayKitChatStream = true →
      progress.foldlM
        (fun (acc : UChat × List ChatEffect) (text : String) => do
          let r ← OnRequestProgress64 E acc.1 acc.1.CurrentHttpRequest
            (some { ResponseCode := code, Content := text })
          pure (r.1, acc.2 ++ r.2)) acc = .ok acc := by
  induction progress with
  | nil => intro acc _; rfl
  | cons text rest ih =>
    intro acc hstream
    rw [List.foldlM_cons, OnRequestProgress64_streaming E acc.1 _ _ hstream]
    simpa [bind, Except.bind, pure, Except.pure] using ih acc hstream

/-- C13, the code at the failing input: in streaming mode the turn returns, and
whatever cumulative texts the progress callbacks carry, `OnPlayKitChatResponding`
is never broadcast; the effects of the whole turn are those of `ChatToAI`
followed by the one `OnPlayKitChatResponded` of the completion. For the two
cumulative buffers of Scenario B the number of responding events is zero, not
two. -/
theorem C13_streaming_progress_broadcasts_nothing (E : Engine) (Handle : Nat) (self : UChat)
    (AuthToken Message Model : String) (temperature : ℚ) (progress : List String)
    (final : FHttpResponse) :
    (∃ r : UChat × List ChatEffect,
        streamingTurn E Handle self AuthToken Message Model temperature progress final = .ok r
          ∧ respondingOf r.2 = []
          ∧ r.2 = (ChatToAI E Handle self AuthToken Message Model temperature true).2
              ++ [ChatEffect.OnPlayKitChatResponded self.LastCompletedResponse])
      ∧ (streamingTurn E Handle self AuthToken Message Model temperature
            [scenarioBFrame1, scenarioBFrame1 ++ scenarioBFrame2]
            ⟨200, scenarioBFrame1 ++ scenarioBFrame2⟩).toOption.map
          (fun r => (respondingOf r.2).length) = some 0 := by
  have key : ∀ (progress : List String) (final : FHttpResponse),
      streamingTurn E Handle self AuthToken Message Model temperature progress final
        = .ok ((ChatToAI E Handle self AuthToken Message Model temperature true).1,
            (ChatToAI E Handle self AuthToken Message Model temperature true).2
              ++ [ChatEffect.OnPlayKitChatResponded self.LastCompletedResponse]) := by
    intro progress final
    unfold streamingTurn
    simp only [progress_streaming_noop E final.ResponseCode progress
      (ChatToAI E Handle self AuthToken Message Model temperature true) rfl]
    simp only [OnProcessRequestComplete_eq, bind, Except.bind, pure, Except.pure]
    rfl
  constructor
  · refine ⟨_, key progress final, ?_, rfl⟩
    simp [ChatToAI, respondingOf]
  · rw [key]
    simp [ChatToAI, respondingOf, Except.toOption]

end ChatComponent

/-! ## Chat component: conversation history -/

section ChatHistory

open Chat Chat.UChat

/-- The responding broadcasts of two effect lists in a row. -/
theorem respondingOf_append (a b : List ChatEffect) :
    respondingOf (a ++ b) = respondingOf a ++ respondingOf b := by
  induction a with
  | nil => rfl
  | cons e es ih => cases e <;> simp [respondingOf, ih]

/-- A call of `ParsePlayKitResponse` that returns either leaves the history as
it was, or appends one entry with the role and content of the response it
broadcasts. -/
theorem ParsePlayKitResponse_history (E : Engine) (self s1 : UChat) (_Response : String)
    (effs : List ChatEffect) (h : ParsePlayKitResponse E self _Response = .ok (s1, effs)) :
    s1.AllContext = self.AllContext
      ∨ ∃ resp, resp ∈ respondingOf effs
          ∧ s1.AllContext = self.AllContext ++ [{ role := resp.role, content := resp.content }] := by
  unfold ParsePlayKitResponse at h
  split at h
  · simp only [Except.ok.injEq, Prod.mk.injEq] at h
    left; rw [← h.1]
  · split at h
    · exact absurd h (by simp)
    · split at h
      · exact absurd h (by simp)
      · split at h
        · exact absurd h (by simp)
        · split at h
          · exact absurd h (by simp)
          · simp only [Except.ok.injEq, Prod.mk.injEq] at h
            right
            obtain ⟨h1, h2⟩ := h
            refine ⟨s1.LastCompletedResponse, ?_, ?_⟩
            · rw [← h2, ← h1]
              simp [respondingOf]
            · rw [← h1]
              simp [AddContext]

/-- Appending an entry whose role is not "system" keeps every entry after the
first free of the role "system". -/
theorem tail_no_system_append (l : List FChatContext) (c : FChatContext)
    (hl : ∀ x ∈ l.tail, x.role ≠ "system") (hc : c.role ≠ "system") :
    ∀ x ∈ (l ++ [c]).tail, x.role ≠ "system" := by
  cases l with
  | nil => simp
  | cons a t =>
    intro x hx
    simp only [List.cons_append, List.tail_cons, List.mem_append, List.mem_singleton] at hx
    rcases hx with hx | hx
    · exact hl x (by simpa using hx)
    · rw [hx]; exact hc

/-- A call of `InitPrompt` keeps every entry after the first free of the role
"system". -/
theorem InitPrompt_tail_no_system (self : UChat) (Prompt _Game_ID : String)
    (hl : ∀ x ∈ self.AllContext.tail, x.role ≠ "system") :
    ∀ x ∈ (InitPrompt self Prompt _Game_ID).AllContext.tail, x.role ≠ "system" := by
  unfold InitPrompt
  cases hctx : self.AllContext with
  | nil => simp [hctx, AddContext]
  | cons a t =>
    rw [hctx] at hl
    simpa [hctx] using hl

/-- One call keeps every entry after the first free of the role "system", as
long as the response it broadcasts does not carry that role. -/
theorem step_tail_no_system (E : Engine) (self s1 : UChat) (op : ChatOp)
    (effs : List ChatEffect) (hstep : UChat.step E self op = .ok (s1, effs))
    (hrole : ∀ r ∈ respondingOf effs, r.role ≠ "system")
    (hl : ∀ x ∈ self.AllContext.tail, x.role ≠ "system") :
    ∀ x ∈ s1.AllContext.tail, x.role ≠ "system" := by
  cases op with
  | InitPrompt Prompt _Game_ID =>
    simp only [UChat.step, Except.ok.injEq, Prod.mk.injEq] at hstep
    rw [← hstep.1]
    exact InitPrompt_tail_no_system self Prompt _Game_ID hl
  | ChatToAI Handle AuthToken Message Model temperature stream =>
    simp only [UChat.step, Except.ok.injEq] at hstep
    have hctx : s1.AllContext = self.AllContext
        ++ [{ role := "user"
              content :=
                JsonObjectToString E ([("message", FJsonValue.FJsonValueString Message)]) }] := by
      have := congrArg (fun r => r.1.AllContext) hstep
      simpa [ChatToAI, AddContext] using this.symm
    rw [hctx]
    exact tail_no_system_append _ _ hl (by simp)
  | ParsePlayKitResponse _Response =>
    simp only [UChat.step] at hstep
    rcases ParsePlayKitResponse_history E self s1 _Response effs hstep with h | ⟨resp, hmem, h⟩
    · rw [h]; exact hl
    · rw [h]
      exact tail_no_system_append _ _ hl (hrole resp hmem)
  | ClearContext =>
    simp only [UChat.step, Except.ok.injEq, Prod.mk.injEq] at hstep
    rw [← hstep.1]
    simp [ClearContext]

/-- A sequence of calls keeps every entry after the first free of the role
"system", as long as no response it broadcasts carries that role. -/
theorem run_tail_no_system (E : Engine) (ops : List ChatOp) :
    ∀ (self s1 : UChat) (effs : List ChatEffect), UChat.run E self ops = .ok (s1, effs) →
      (∀ r ∈ respondingOf effs, r.role ≠ "system") →
      (∀ x ∈ self.AllContext.tail, x.role ≠ "system") →
      ∀ x ∈ s1.AllContext.tail, x.role ≠ "system" := by
  induction ops with
  | nil =>
    intro self s1 effs hrun _ hl
    simp only [UChat.run, Except.ok.injEq, Prod.mk.injEq] at hrun
    rw [← hrun.1]; exact hl
  | cons op ops ih =>
    intro self s1 effs hrun hrole hl
    simp only [UChat.run] at hrun
    cases hstep : UChat.step E self op with
    | error f => simp [hstep] at hrun
    | ok r =>
      rw [hstep] at hrun
      simp only at hrun
      cases hrest : UChat.run E r.1 ops with
      | error f => simp [hrest] at hrun
      | ok r2 =>
        rw [hrest] at hrun
        simp only [Except.ok.injEq, Prod.mk.injEq] at hrun
        obtain ⟨h1, h2⟩ := hrun
        have hrole1 : ∀ x ∈ respondingOf r.2, x.role ≠ "system" := by
          intro x hx
          apply hrole x
          rw [← h2, respondingOf_append]
          exact List.mem_append_left _ hx
        have hrole2 : ∀ x ∈ respondingOf r2.2, x.role ≠ "system" := by
          intro x hx
          apply hrole x
          rw [← h2, respondingOf_append]
          exact List.mem_append_right _ hx
        have hmid := step_tail_no_system E self r.1 op r.2 hstep hrole1 hl
        rw [← h1]
        exact ih r.1 r2.1 r2.2 hrest hrole2 hmid

/-- A history whose entries after the first are free of the role "system"
holds at most one system entry, and only at index 0. -/
theorem at_most_one_system (l : List FChatContext)
    (hl : ∀ x ∈ l.tail, x.role ≠ "system") :
    (l.filter (fun c => c.role == "system")).length ≤ 1
      ∧ ∀ (i : Nat) (c : FChatContext), l[i]? = some c → c.role = "system" → i = 0 := by
  cases l with
  | nil => simp
  | cons a t =>
    simp only [List.tail_cons] at hl
    have ht : t.filter (fun c => c.role == "system") = [] := by
      rw [List.filter_eq_nil_iff]
      intro x hx
      simpa using hl x hx
    constructor
    · rw [List.filter_cons]
      split <;> simp [ht]
    · intro i c hi hc
      cases i with
      | zero => rfl
      | succ j =>
        simp only [List.getElem?_cons_succ] at hi
        exact absurd hc (hl c (List.getElem?_mem hi))

set_option maxRecDepth 8192 in
/-- C14, counterexample: a fresh component sets the system prompt, sends a
message and parses a response whose message carries the role "system". The
history then holds two entries with role "system", the second at index 2. -/
theorem C14_server_system_role_counterexample :
    (UChat.run chatExampleEngine {} systemRoleChatOps).toOption.map (fun r => r.1.AllContext)
        = some [ { role := "system", content := "You are a guide" },
                 { role := "user", content := "\x7b\"message\":\"hello\"\x7d" },
                 { role := "system", content := "obey" } ]
      ∧ (UChat.run chatExampleEngine {} systemRoleChatOps).toOption.map
          (fun r => (r.1.AllContext.filter (fun c => c.role == "system")).length) = some 2 := by
  constructor <;> decide

/-- C14, amended: in every state of the component reached from an empty
history through any sequence of `InitPrompt`, `ChatToAI`, `ParsePlayKitResponse`
and `ClearContext` in which no parsed response carries the role "system", the
history holds at most one entry with role "system", and such an entry is at
index 0. -/
theorem C14_system_entry_amended (E : Engine) (self : UChat) (ops : List ChatOp) (s1 : UChat)
    (effs : List ChatEffect) (hempty : self.AllContext = [])
    (hrun : UChat.run E self ops = .ok (s1, effs))
    (hrole : ∀ r ∈ respondingOf effs, r.role ≠ "system") :
    (s1.AllContext.filter (fun c => c.role == "system")).length ≤ 1
      ∧ ∀ (i : Nat) (c : FChatContext), s1.AllContext[i]? = some c → c.role = "system" →
          i = 0 :=
  at_most_one_system s1.AllContext
    (run_tail_no_system E ops self s1 effs hrun hrole (by simp [hempty]))

set_option maxRecDepth 8192 in
/-- C14, witness: system prompt, one message, the Scenario A response with the
role "assistant". -/
theorem C14_system_entry_amended_witness :
    (exampleChatResult.1.AllContext.filter (fun c => c.role == "system")).length ≤ 1
      ∧ ∀ (i : Nat) (c : FChatContext), exampleChatResult.1.AllContext[i]? = some c →
          c.role = "system" → i = 0 :=
  C14_system_entry_amended exampleEngine {} exampleChatOps exampleChatResult.1
    exampleChatResult.2 rfl rfl (by decide)

/-- C15, the code at the failing input: on a history whose first entry is a
user message, `InitPrompt` writes the prompt into that entry and keeps its
role, so index 0 is not a system message afterwards; this is the state after
`ChatToAI` on a fresh component followed by `InitPrompt`. In general
`InitPrompt` on a non-empty history replaces the content of index 0, keeps its
role and keeps the other entries, and on an empty history inserts the system
message. -/
theorem C15_InitPrompt_keeps_first_role :
    (InitPrompt { AllContext := [{ role := "user", content := "hello" }] }
        "You are a guide" "game").AllContext
        = [{ role := "user", content := "You are a guide" }]
      ∧ (∀ (E : Engine) (Handle : Nat) (AuthToken Message Model Prompt _Game_ID : String)
          (temperature : ℚ) (stream : Bool),
          (InitPrompt (ChatToAI E Handle {} AuthToken Message Model temperature stream).1
            Prompt _Game_ID).AllContext = [{ role := "user", content := Prompt }])
      ∧ (∀ (self : UChat) (first : FChatContext) (rest : List FChatContext)
          (Prompt _Game_ID : String),
          (InitPrompt { self with AllContext := first :: rest } Prompt _Game_ID).AllContext
            = { role := first.role, content := Prompt } :: rest)
      ∧ (∀ (self : UChat) (Prompt _Game_ID : String),
          (InitPrompt { self with AllContext := [] } Prompt _Game_ID).AllContext
            = [{ role := "system", content := Prompt }]) := by
  refine ⟨by decide, ?_, ?_, ?_⟩
  · intro E Handle AuthToken Message Model Prompt _Game_ID temperature stream
    simp [InitPrompt, ChatToAI, AddContext]
  · intro self first rest Prompt _Game_ID
    simp [InitPrompt]
  · intro self Prompt _Game_ID
    simp [InitPrompt, AddContext]

/-- C16: `ChatToAI` appends exactly one entry, with role "user", at the end of
the history and leaves the earlier entries as they were; it hands one request
to the transport, whose content is the serialized body; the messages array of
that body has the length of the resulting history and lists the role and
content of its entries in the same order; and the body carries the model, the
temperature and the stream flag of the call. -/
theorem C16_ChatToAI_history_and_body (E : Engine) (Handle : Nat) (self : UChat)
    (AuthToken Message Model : String) (temperature : ℚ) (stream : Bool) :
    ∃ (entry : FChatContext) (Request : FHttpRequest) (body : FJsonObject)
        (messages : List FJsonValue),
      entry.role = "user"
        ∧ (ChatToAI E Handle self AuthToken Message Model temperature stream).1.AllContext
            = self.AllContext ++ [entry]
        ∧ chatProcessedOf (ChatToAI E Handle self AuthToken Message Model temperature stream).2
            = [Request]
        ∧ Request.Content = E.Serialize body
        ∧ body.TryGetField "model" = some (FJsonValue.FJsonValueString Model)
        ∧ body.TryGetField "temperature" = some (FJsonValue.FJsonValueNumber temperature)
        ∧ body.TryGetField "stream" = some (FJsonValue.FJsonValueBoolean stream)
        ∧ body.TryGetField "messages" = some (FJsonValue.FJsonValueArray messages)
        ∧ messages.length = (self.AllContext ++ [entry]).length
        ∧ ∀ (i : Nat) (c : FChatContext), (self.AllContext ++ [entry])[i]? = some c →
            ∃ o : FJsonObject, messages[i]? = some (FJsonValue.FJsonValueObject o)
              ∧ o.TryGetField "role" = some (FJsonValue.FJsonValueString c.role)
              ∧ o.TryGetField "content" = some (FJsonValue.FJsonValueString c.content) := by
  refine ⟨FChatContext.mk "user"
      (JsonObjectToString E ([("message", FJsonValue.FJsonValueString Message)])),
    FHttpRequest.mk Handle self.ChatURL "POST"
      [("Content-Type", "application/json"), ("Authorization", "Bearer " ++ AuthToken)]
      (E.Serialize (UChat.RequestBody (self.AllContext ++ [FChatContext.mk "user"
        (JsonObjectToString E ([("message", FJsonValue.FJsonValueString Message)]))])
        Model temperature stream)),
    UChat.RequestBody (self.AllContext ++ [FChatContext.mk "user"
      (JsonObjectToString E ([("message", FJsonValue.FJsonValueString Message)]))])
      Model temperature stream,
    (self.AllContext ++ [FChatContext.mk "user"
      (JsonObjectToString E ([("message", FJsonValue.FJsonValueString Message)]))]).map
      (fun context => FJsonValue.FJsonValueObject
        [("role", FJsonValue.FJsonValueString context.role),
         ("content", FJsonValue.FJsonValueString context.content)]),
    rfl, ?_, ?_, ?_, ?_, ?_, ?_, ?_, ?_, ?_⟩
  · simp [ChatToAI, AddContext]
  · simp [ChatToAI, chatProcessedOf, AddContext, JsonObjectToString, FHttpRequest.SetHeader]
  · rfl
  · simp [UChat.RequestBody, FJsonObject.TryGetField]
  · simp [UChat.RequestBody, FJsonObject.TryGetField]
  · simp [UChat.RequestBody, FJsonObject.TryGetField]
  · simp only [UChat.RequestBody, FJsonObject.TryGetField]
    rfl
  · simp
  · intro i c hi
    refine ⟨[("role", FJsonValue.FJsonValueString c.role),
      ("content", FJsonValue.FJsonValueString c.content)], ?_, ?_, ?_⟩
    · rw [List.getElem?_map, hi]; rfl
    · simp [FJsonObject.TryGetField]
    · simp [FJsonObject.TryGetField]

/-- C16, witness: a message sent on a history that holds the system message. -/
theorem C16_ChatToAI_history_and_body_witness :
    ∃ (entry : FChatContext) (messages : List FJsonValue) (o : FJsonObject),
      entry.role = "user"
        ∧ (ChatToAI exampleEngine 0
            { AllContext := [{ role := "system", content := "You are a guide" }] }
            "token" "hello" "deepseek-chat" (7 / 10) false).1.AllContext
          = [{ role := "system", content := "You are a guide" }] ++ [entry]
        ∧ messages.length = 2
        ∧ messages[0]? = some (FJsonValue.FJsonValueObject o)
        ∧ o.TryGetField "role" = some (FJsonValue.FJsonValueString "system")
        ∧ o.TryGetField "content" = some (FJsonValue.FJsonValueString "You are a guide") := by
  obtain ⟨entry, _, _, messages, hrole, hctx, _, _, _, _, _, _, hlen, hall⟩ :=
    C16_ChatToAI_history_and_body exampleEngine 0
      { AllContext := [{ role := "system", content := "You are a guide" }] }
      "token" "hello" "deepseek-chat" (7 / 10) false
  obtain ⟨o, ho, hr, hc⟩ := hall 0 { role := "system", content := "You are a guide" } rfl
  exact ⟨entry, messages, o, hrole, hctx, hlen, ho, hr, hc⟩

end ChatHistory

/-! ## Image client: request body -/

section ImageRequestBody

open UPlayKitImageClient

/-- Every request that `SendImageRequest` hands to the transport carries the
serialized `RequestBody` of the call as its content. -/
theorem SendImageRequest_content (E : Engine) (Settings : Option UPlayKitSettings)
    (Handle : Nat) (self : UPlayKitImageClient) (Prompt : String)
    (Options : FPlayKitImageOptions) :
    ∀ Request ∈ processedOf (SendImageRequest E Settings Handle self Prompt Options).2,
      Request.Content = E.Serialize (RequestBody self.ModelName Prompt Options) := by
  unfold SendImageRequest
  split_ifs
  · simp [BroadcastError, processedOf]
  · simp [BroadcastError, processedOf]
  · cases Settings with
    | none => simp [BroadcastError, processedOf]
    | some S => simp [processedOf]

/-- The engine clamp is the maximum with the lower bound of the minimum with
the upper bound. -/
theorem Clamp_eq_max_min (X : Int) : Clamp X 1 10 = max 1 (min X 10) := by
  unfold Clamp
  split_ifs <;> omega

/-- An idle client with settings and a non-empty prompt broadcasts nothing and
hands exactly one request to the transport, whose content is the serialized
`RequestBody` of the call. -/
theorem SendImageRequest_sends_body (E : Engine) (S : UPlayKitSettings) (Handle : Nat)
    (self : UPlayKitImageClient) (Prompt : String) (Options : FPlayKitImageOptions)
    (hidle : self.bIsProcessing = false) (hprompt : Prompt.isEmpty = false) :
    ∃ Request : FHttpRequest,
      (SendImageRequest E (some S) Handle self Prompt Options).2
          = [Effect.ProcessRequest Request]
        ∧ Request.Content = E.Serialize (RequestBody self.ModelName Prompt Options) := by
  obtain ⟨Request, _, hsend⟩ :=
    SendImageRequest_accepted E S Handle self Prompt Options hidle hprompt
  refine ⟨Request, by rw [hsend], ?_⟩
  apply SendImageRequest_content E (some S) Handle self Prompt Options Request
  rw [hsend]
  simp [processedOf]

/-- C17: an idle client with settings and a non-empty prompt answers
`SendImageRequest` for every `Options.Count`, also 0, negative values and
values above 10, by handing exactly one request to the transport and nothing
else; the content of that request is the serialized body, and the field n of
that body is `max 1 (min Count 10)`, so it lies between 1 and 10 and equals
`Count` whenever `1 ≤ Count ≤ 10`. In every other state, whatever request is
handed to the transport carries the body with that field. -/
theorem C17_count_clamped (E : Engine) (S : UPlayKitSettings) (Handle : Nat)
    (self : UPlayKitImageClient) (Prompt : String) (Options : FPlayKitImageOptions)
    (hidle : self.bIsProcessing = false) (hprompt : Prompt.isEmpty = false) :
    (∃ (Request : FHttpRequest) (body : FJsonObject) (n : Int),
        (SendImageRequest E (some S) Handle self Prompt Options).2
            = [Effect.ProcessRequest Request]
          ∧ Request.Content = E.Serialize body
          ∧ body = RequestBody self.ModelName Prompt Options
          ∧ body.TryGetField "n" = some (FJsonValue.FJsonValueNumber n)
          ∧ n = max 1 (min Options.Count 10)
          ∧ 1 ≤ n ∧ n ≤ 10
          ∧ (1 ≤ Options.Count → Options.Count ≤ 10 → n = Options.Count))
      ∧ ∀ (Settings : Option UPlayKitSettings) (other : UPlayKitImageClient),
          ∀ Request ∈ processedOf (SendImageRequest E Settings Handle other Prompt Options).2,
            Request.Content = E.Serialize (RequestBody other.ModelName Prompt Options) := by
  obtain ⟨Request, hsend, hcontent⟩ :=
    SendImageRequest_sends_body E S Handle self Prompt Options hidle hprompt
  refine ⟨⟨Request, RequestBody self.ModelName Prompt Options, Clamp Options.Count 1 10,
    hsend, hcontent, rfl, ?_, Clamp_eq_max_min _, ?_, ?_, ?_⟩, ?_⟩
  · unfold RequestBody
    split_ifs <;> simp [FJsonObject.TryGetField]
  · rw [Clamp_eq_max_min]; omega
  · rw [Clamp_eq_max_min]; omega
  · intro h1 h2
    rw [Clamp_eq_max_min]; omega
  · intro Settings other
    exact SendImageRequest_content E Settings Handle other Prompt Options

/-- C17, witness: a fresh client is asked for 50 images, and for 0 images; it
sends one request each time, with n = 10 and with n = 1. -/
theorem C17_count_clamped_witness :
    (∃ (Request : FHttpRequest) (body : FJsonObject),
        (SendImageRequest exampleEngine (some exampleSettings) 0
            { ModelName := "image-model" } "a cat" { Count := 50 }).2
            = [Effect.ProcessRequest Request]
          ∧ Request.Content = exampleEngine.Serialize body
          ∧ body.TryGetField "n" = some (FJsonValue.FJsonValueNumber 10))
      ∧ (∃ (Request : FHttpRequest) (body : FJsonObject),
        (SendImageRequest exampleEngine (some exampleSettings) 0
            { ModelName := "image-model" } "a cat" { Count := 0 }).2
            = [Effect.ProcessRequest Request]
          ∧ Request.Content = exampleEngine.Serialize body
          ∧ body.TryGetField "n" = some (FJsonValue.FJsonValueNumber 1))
      ∧ (SendImageRequest exampleEngine (some exampleSettings) 0
            { ModelName := "image-model" } "a cat" { Count := 50 }).2
          = [Effect.ProcessRequest (exampleRequest.SetContentAsString
              "\x7b\"model\":\"image-model\",\"prompt\":\"a cat\",\"n\":10,\"size\":\"1024x1024\",\"response_format\":\"b64_json\"\x7d")] := by
  obtain ⟨⟨R50, b50, n50, s50, c50, _, f50, e50, _⟩, _⟩ :=
    C17_count_clamped exampleEngine exampleSettings 0 { ModelName := "image-model" } "a cat"
      { Count := 50 } rfl (by decide)
  obtain ⟨⟨R0, b0, n0, s0, c0, _, f0, e0, _⟩, _⟩ :=
    C17_count_clamped exampleEngine exampleSettings 0 { ModelName := "image-model" } "a cat"
      { Count := 0 } rfl (by decide)
  have e50n : n50 = 10 := by rw [e50]; decide
  have e0n : n0 = 1 := by rw [e0]; decide
  subst e50n e0n
  exact ⟨⟨R50, b50, s50, c50, by simpa using f50⟩, ⟨R0, b0, s0, c0, by simpa using f0⟩,
    by decide⟩

end ImageRequestBody

/-! ## Blueprint library: readiness and authentication -/

section BlueprintLibrary

open UPlayKitBlueprintLibrary

/-- C19, the code at the failing input: with a Game ID, a developer token that
is set to be ignored and no player token, `IsReady` returns true although
`GetAuthToken` returns the empty string and `IsAuthenticated` returns false. In
general `IsReady` is the Game ID test together with "a developer token or a
player token exists", whatever `bIgnoreDeveloperToken` says. -/
theorem C19_IsReady_ignores_bIgnoreDeveloperToken :
    IsReady (some ignoredDeveloperTokenSettings) = true
      ∧ GetGameId (some ignoredDeveloperTokenSettings) = "game"
      ∧ GetAuthToken (some ignoredDeveloperTokenSettings) = ""
      ∧ IsAuthenticated (some ignoredDeveloperTokenSettings) = false
      ∧ (∀ S : UPlayKitSettings,
          IsReady (some S) = (!S.GameId.isEmpty
            && (!S.DeveloperToken.isEmpty || !S.PlayerToken.isEmpty)))
      ∧ (∀ S : UPlayKitSettings,
          IsReady (some { S with bIgnoreDeveloperToken := true })
            = IsReady (some { S with bIgnoreDeveloperToken := false })) := by
  refine ⟨by decide, by decide, by decide, by decide, ?_, ?_⟩
  · intro S; rfl
  · intro S; rfl

/-- C20: `GetAuthToken` returns the developer token when one exists and
`bIgnoreDeveloperToken` is false, the player token in every other settings
state, and the empty string when the settings are absent; `IsAuthenticated` is
true exactly when that result is not empty. -/
theorem C20_GetAuthToken_prefers_developer_token (Settings : Option UPlayKitSettings) :
    (∀ S : UPlayKitSettings, S.HasDeveloperToken = true → S.bIgnoreDeveloperToken = false →
        GetAuthToken (some S) = S.GetDeveloperToken)
      ∧ (∀ S : UPlayKitSettings,
          (S.HasDeveloperToken = false ∨ S.bIgnoreDeveloperToken = true) →
          GetAuthToken (some S) = S.GetPlayerToken)
      ∧ GetAuthToken none = ""
      ∧ (IsAuthenticated Settings = true ↔ (GetAuthToken Settings).isEmpty = false) := by
  refine ⟨?_, ?_, rfl, ?_⟩
  · intro S h1 h2
    simp [GetAuthToken, h1, h2]
  · intro S h
    rcases h with h | h <;> simp [GetAuthToken, h]
  · simp [IsAuthenticated]

/-- C20, witness: with both tokens set the developer token is returned unless
it is to be ignored. -/
theorem C20_GetAuthToken_prefers_developer_token_witness :
    GetAuthToken (some { exampleSettings with DeveloperToken := "dev-token" }) = "dev-token"
      ∧ GetAuthToken (some { exampleSettings with
          DeveloperToken := "dev-token", bIgnoreDeveloperToken := true }) = "player-token"
      ∧ GetAuthToken (some exampleSettings) = "player-token" :=
  ⟨(C20_GetAuthToken_prefers_developer_token none).1
      { exampleSettings with DeveloperToken := "dev-token" } (by decide) (by decide),
   (C20_GetAuthToken_prefers_developer_token none).2.1
      { exampleSettings with DeveloperToken := "dev-token", bIgnoreDeveloperToken := true }
      (Or.inr (by decide)),
   (C20_GetAuthToken_prefers_developer_token none).2.1 exampleSettings (Or.inl (by decide))⟩

end BlueprintLibrary

/-! ## Blueprint library: client factory -/

section ClientFactory

open UPlayKitBlueprintLibrary

/-- C21: `CreateImageClient` returns no client exactly when the settings are
absent or the Game ID is empty, whatever the tokens are; otherwise it returns a
new client whose `GetModelName` is `ModelName` when that is not empty and the
`DefaultImageModel` of the settings when it is empty, and whose `IsProcessing`
is false. -/
theorem C21_CreateImageClient (Settings : Option UPlayKitSettings) (ModelName : String) :
    (CreateImageClient Settings ModelName = none
        ↔ Settings = none ∨ ∃ S, Settings = some S ∧ S.GameId.isEmpty = true)
      ∧ ∀ S : UPlayKitSettings, Settings = some S → S.GameId.isEmpty = false →
          ∃ Client : UPlayKitImageClient,
            CreateImageClient Settings ModelName = some Client
              ∧ (ModelName.isEmpty = false → Client.GetModelName = ModelName)
              ∧ (ModelName.isEmpty = true → Client.GetModelName = S.DefaultImageModel)
              ∧ Client.IsProcessing = false
              ∧ Client.LastPrompt = "" ∧ Client.CurrentRequest = none := by
  constructor
  · cases Settings with
    | none => simp [CreateImageClient]
    | some S =>
      by_cases h : S.GameId.isEmpty = true
      · simp [CreateImageClient, h]
      · simp [CreateImageClient, h]
  · intro S hS hid
    subst hS
    refine ⟨UPlayKitImageClient.Initialize {}
      (if ModelName.isEmpty then S.DefaultImageModel else ModelName), ?_, ?_, ?_, rfl, rfl, rfl⟩
    · simp [CreateImageClient, hid]
    · intro h
      simp [UPlayKitImageClient.GetModelName, UPlayKitImageClient.Initialize, h]
    · intro h
      simp [UPlayKitImageClient.GetModelName, UPlayKitImageClient.Initialize, h]

/-- C21, witness: settings with a Game ID and no token at all still give a
client; an empty model name selects the default image model. -/
theorem C21_CreateImageClient_witness :
    ∃ Client : UPlayKitImageClient,
      CreateImageClient (some { exampleSettings with PlayerToken := "" }) "" = some Client
        ∧ Client.GetModelName = "image-model"
        ∧ Client.IsProcessing = false := by
  obtain ⟨Client, h1, _, h3, h4, _⟩ :=
    (C21_CreateImageClient (some { exampleSettings with PlayerToken := "" }) "").2
      { exampleSettings with PlayerToken := "" } rfl (by decide)
  exact ⟨Client, h1, h3 (by decide), h4⟩

end ClientFactory

/-! ## Chat component: response fields and events -/

section ChatResponseFields

open Chat Chat.UChat

set_option maxRecDepth 8192 in
/-- C22, the code at the failing input: for a response whose message carries
finish_reason = "stop", the response record built by `ParsePlayKitResponse` has
an empty finish-reason field; the field is filled only when the message spells
the key finsih_reason, which is the key the code reads. -/
theorem C22_finish_reason_not_read (self : UChat) :
    (ParsePlayKitResponse finishReasonEngine self finishReasonBody).toOption.map
        (fun r => (respondingOf r.2).map (fun resp => resp.finsih_reason)) = some [""]
      ∧ (ParsePlayKitResponse finishReasonEngine self finishReasonBody).toOption.map
        (fun r => r.1.LastCompletedResponse.finsih_reason) = some ""
      ∧ (ParsePlayKitResponse finishReasonEngine self finsihReasonBody).toOption.map
        (fun r => (respondingOf r.2).map (fun resp => resp.finsih_reason)) = some ["stop"] := by
  refine ⟨?_, ?_, ?_⟩ <;> rfl

/-- C24, counterexample: for the message "hello" the Message parameter of the
one `OnPlayKitChatTalkTo` broadcast is the JSON text of the object with the
field message = "hello", not the text "hello". -/
theorem C24_TalkTo_message_counterexample :
    talkToOf (ChatToAI exampleEngine 0 {} "token" "hello" "deepseek-chat" (7 / 10) false).2
        = [("UserName", "ChatName", "\x7b\"message\":\"hello\"\x7d")]
      ∧ "\x7b\"message\":\"hello\"\x7d" ≠ "hello" := by
  constructor <;> decide

/-- C24, amended: `ChatToAI` broadcasts `OnPlayKitChatTalkTo` exactly once per
call, with the fixed names "UserName" and "ChatName"; the Message parameter is
the content of the user entry that the call appends to the history, which is
the serialized JSON object with the single field message = `Message`. -/
theorem C24_TalkTo_message_amended (E : Engine) (Handle : Nat) (self : UChat)
    (AuthToken Message Model : String) (temperature : ℚ) (stream : Bool) :
    talkToOf (ChatToAI E Handle self AuthToken Message Model temperature stream).2
        = [("UserName", "ChatName",
            E.Serialize ([("message", FJsonValue.FJsonValueString Message)]))]
      ∧ (ChatToAI E Handle self AuthToken Message Model temperature stream).1.AllContext
        = self.AllContext ++ [FChatContext.mk "user"
            (E.Serialize ([("message", FJsonValue.FJsonValueString Message)]))] := by
  constructor
  · simp [ChatToAI, talkToOf, JsonObjectToString]
  · simp [ChatToAI, AddContext, JsonObjectToString]

end ChatResponseFields

/-! ## Image client: result events -/

section ImageResultEvents

open UPlayKitImageClient

/-- The single-image broadcasts of a successful completion: the one parsed
image when there is exactly one, none otherwise. -/
theorem success_effects_single (Results : List FPlayKitGeneratedImage) :
    imageGeneratedOf ((match Results with
        | [Image] => [Effect.OnImageGenerated Image]
        | _ => []) ++ [Effect.OnImagesGenerated Results])
      = if Results.length = 1 then Results else [] := by
  rcases Results with _ | ⟨a, _ | ⟨b, t⟩⟩ <;> simp [imageGeneratedOf]

/-- C23: on a successful completion (success flag set, 2xx status, body a JSON
object) `OnImagesGenerated` is broadcast once with the parsed images and no
`OnError` is broadcast; `OnImageGenerated` is broadcast if and only if exactly
one image was parsed, and then exactly once with that image; with zero images
or with two or more the `OnImagesGenerated` broadcast is the only effect, so
nothing at all reaches the single-image delegate. -/
theorem C23_single_image_event (E : Engine) (self : UPlayKitImageClient)
    (Request : Option FHttpRequest) (c : Int) (body : String) (h1 : 200 ≤ c) (h2 : c ≤ 299)
    (JsonObject : FJsonObject) (hparse : E.Deserialize body = some JsonObject) :
    ∃ Results : List FPlayKitGeneratedImage,
      imagesGeneratedOf (HandleImageResponse E self Request (some ⟨c, body⟩) true).2
          = [Results]
        ∧ errorsOf (HandleImageResponse E self Request (some ⟨c, body⟩) true).2 = []
        ∧ (imageGeneratedOf (HandleImageResponse E self Request (some ⟨c, body⟩) true).2 ≠ []
            ↔ Results.length = 1)
        ∧ (Results.length = 1 →
            imageGeneratedOf (HandleImageResponse E self Request (some ⟨c, body⟩) true).2
              = Results)
        ∧ (Results.length ≠ 1 →
            (HandleImageResponse E self Request (some ⟨c, body⟩) true).2
                = [Effect.OnImagesGenerated Results]
              ∧ imageGeneratedOf (HandleImageResponse E self Request (some ⟨c, body⟩) true).2
                = []) := by
  have h3 : c < 300 := by omega
  obtain ⟨Results, _, heff⟩ :=
    HandleImageResponse_success E self Request c body h1 h3 JsonObject hparse
  refine ⟨Results, ?_, ?_, ?_, ?_, ?_⟩
  · rw [heff]; exact (success_effects_projections Results).2
  · rw [heff]; exact (success_effects_projections Results).1
  · rw [heff, success_effects_single]
    by_cases hlen : Results.length = 1
    · simp only [hlen, if_true, iff_true]
      intro hnil
      rw [hnil] at hlen
      simp at hlen
    · simp [hlen]
  · intro hlen
    rw [heff, success_effects_single, if_pos hlen]
  · intro hlen
    rw [heff]
    constructor
    · rcases Results with _ | ⟨a, _ | ⟨b, t⟩⟩
      · rfl
      · exact absurd rfl hlen
      · rfl
    · rw [success_effects_single, if_neg hlen]

/-- C23, witness: one parsed image reaches both delegates, two parsed images
and zero parsed images reach only `OnImagesGenerated`. -/
theorem C23_single_image_event_witness :
    (imageGeneratedOf (HandleImageResponse imageExampleEngine { LastPrompt := "a cat" } none
        (some ⟨200, exampleImageBody⟩) true).2).length = 1
      ∧ imageGeneratedOf (HandleImageResponse imageExampleEngine { LastPrompt := "a cat" } none
        (some ⟨200, twoImagesBody⟩) true).2 = []
      ∧ (HandleImageResponse imageExampleEngine { LastPrompt := "a cat" } none
        (some ⟨200, "\x7b\x7d"⟩) true).2 = [Effect.OnImagesGenerated []] := by
  obtain ⟨R1, g1, _, _, s1, _⟩ := C23_single_image_event imageExampleEngine
    { LastPrompt := "a cat" } none 200 exampleImageBody (by decide) (by decide)
    exampleImageDocument rfl
  obtain ⟨R2, g2, _, _, _, m2⟩ := C23_single_image_event imageExampleEngine
    { LastPrompt := "a cat" } none 200 twoImagesBody (by decide) (by decide)
    twoImagesDocument rfl
  obtain ⟨R0, g0, _, _, _, m0⟩ := C23_single_image_event imageExampleEngine
    { LastPrompt := "a cat" } none 200 "\x7b\x7d" (by decide) (by decide) [] rfl
  have e1 : R1.length = 1 := by
    have hg : imagesGeneratedOf (HandleImageResponse imageExampleEngine
        { LastPrompt := "a cat" } none (some ⟨200, exampleImageBody⟩) true).2
        = [[{ bSuccess := true, ImageBase64 := "QUJD", OriginalPrompt := "a cat",
              RevisedPrompt := "a red cat", GeneratedAt := some 1700000000 }]] := by decide
    rw [hg] at g1
    simp only [List.cons.injEq, and_true] at g1
    rw [← g1]; rfl
  have e2 : R2.length ≠ 1 := by
    have hg : (imagesGeneratedOf (HandleImageResponse imageExampleEngine
        { LastPrompt := "a cat" } none (some ⟨200, twoImagesBody⟩) true).2).map List.length
        = [2] := by decide
    rw [g2] at hg
    simp only [List.map_cons, List.map_nil, List.cons.injEq, and_true] at hg
    omega
  have e0 : R0 = [] := by
    have hg : imagesGeneratedOf (HandleImageResponse imageExampleEngine
        { LastPrompt := "a cat" } none (some ⟨200, "\x7b\x7d"⟩) true).2 = [[]] := by decide
    rw [hg] at g0
    simp only [List.cons.injEq, and_true] at g0
    exact g0.symm
  refine ⟨?_, (m2 e2).2, ?_⟩
  · rw [s1 e1]; exact e1
  · have := (m0 (by rw [e0]; decide)).1
    rw [e0] at this
    exact this

end ImageResultEvents

/-! ## Image client: authentication of the request -/

section RequestAuthentication

open UPlayKitImageClient UPlayKitBlueprintLibrary

/-- The request of `CreateAuthenticatedRequest` in terms of the token that
`GetAuthToken` returns for the same settings. -/
theorem CreateAuthenticatedRequest_eq (Settings : Option UPlayKitSettings) (Handle : Nat)
    (Url : String) :
    CreateAuthenticatedRequest Settings Handle Url
      = if (GetAuthToken Settings).isEmpty then
          { Handle := Handle, URL := Url, Verb := "POST",
            Headers := [("Content-Type", "application/json")], Content := "" }
        else
          { Handle := Handle, URL := Url, Verb := "POST",
            Headers := [("Content-Type", "application/json"),
                        ("Authorization", "Bearer " ++ GetAuthToken Settings)],
            Content := "" } := by
  cases Settings with
  | none => rfl
  | some S =>
    unfold CreateAuthenticatedRequest GetAuthToken
    simp only [FHttpRequest.SetHeader]
    generalize (if (S.HasDeveloperToken && !S.bIgnoreDeveloperToken) = true
        then S.GetDeveloperToken else S.GetPlayerToken) = Token
    cases h : Token.isEmpty <;> simp [h]

/-- C25: for every settings state, also absent settings, the request built by
`CreateAuthenticatedRequest` has the verb POST and the header Content-Type
application/json; when the token of `GetAuthToken` for the same settings is
not empty its Authorization header is "Bearer " followed by that token, and the
header is absent if and only if that token is empty. -/
theorem C25_request_authentication (Settings : Option UPlayKitSettings) (Handle : Nat)
    (Url : String) :
    (CreateAuthenticatedRequest Settings Handle Url).Verb = "POST"
      ∧ (CreateAuthenticatedRequest Settings Handle Url).URL = Url
      ∧ (CreateAuthenticatedRequest Settings Handle Url).GetHeader "Content-Type"
          = some "application/json"
      ∧ ((GetAuthToken Settings).isEmpty = false →
          (CreateAuthenticatedRequest Settings Handle Url).GetHeader "Authorization"
            = some ("Bearer " ++ GetAuthToken Settings))
      ∧ ((CreateAuthenticatedRequest Settings Handle Url).GetHeader "Authorization" = none
          ↔ (GetAuthToken Settings).isEmpty = true) := by
  rw [CreateAuthenticatedRequest_eq]
  by_cases h : (GetAuthToken Settings).isEmpty = true
  · simp [h, FHttpRequest.GetHeader]
  · simp [h, FHttpRequest.GetHeader]

/-- C25, witness: the example settings hold only a player token. -/
theorem C25_request_authentication_witness :
    (CreateAuthenticatedRequest (some exampleSettings) 0 "url").GetHeader "Authorization"
        = some "Bearer player-token"
      ∧ (CreateAuthenticatedRequest (some ignoredDeveloperTokenSettings) 0 "url").GetHeader
          "Authorization" = none :=
  ⟨(C25_request_authentication (some exampleSettings) 0 "url").2.2.2.1 (by decide),
   (C25_request_authentication (some ignoredDeveloperTokenSettings) 0 "url").2.2.2.2.2
     (by decide)⟩

/-- C26: when `bIgnoreDeveloperToken` is true, two settings states that differ
only in the developer token give the same result of `GetAuthToken`, the same
request of `CreateAuthenticatedRequest` and so the same Authorization header,
and the same effects and state of `SendImageRequest`. -/
theorem C26_ignored_developer_token (S : UPlayKitSettings) (Token1 Token2 : String)
    (hignore : S.bIgnoreDeveloperToken = true) :
    GetAuthToken (some { S with DeveloperToken := Token1 })
        = GetAuthToken (some { S with DeveloperToken := Token2 })
      ∧ GetAuthToken (some { S with DeveloperToken := Token1 }) = S.PlayerToken
      ∧ (∀ (Handle : Nat) (Url : String),
          CreateAuthenticatedRequest (some { S with DeveloperToken := Token1 }) Handle Url
            = CreateAuthenticatedRequest (some { S with DeveloperToken := Token2 }) Handle Url)
      ∧ (∀ (Handle : Nat) (Url : String),
          (CreateAuthenticatedRequest (some { S with DeveloperToken := Token1 })
              Handle Url).GetHeader "Authorization"
            = (CreateAuthenticatedRequest (some { S with DeveloperToken := Token2 })
              Handle Url).GetHeader "Authorization")
      ∧ (∀ (E : Engine) (Handle : Nat) (self : UPlayKitImageClient) (Prompt : String)
          (Options : FPlayKitImageOptions),
          SendImageRequest E (some { S with DeveloperToken := Token1 }) Handle self Prompt Options
            = SendImageRequest E (some { S with DeveloperToken := Token2 }) Handle self Prompt
                Options) := by
  have htok : ∀ T : String, GetAuthToken (some { S with DeveloperToken := T }) = S.PlayerToken := by
    intro T
    simp [GetAuthToken, hignore, UPlayKitSettings.GetPlayerToken]
  have hreq : ∀ (Handle : Nat) (Url : String),
      CreateAuthenticatedRequest (some { S with DeveloperToken := Token1 }) Handle Url
        = CreateAuthenticatedRequest (some { S with DeveloperToken := Token2 }) Handle Url := by
    intro Handle Url
    rw [CreateAuthenticatedRequest_eq, CreateAuthenticatedRequest_eq, htok, htok]
  refine ⟨by rw [htok, htok], htok Token1, hreq, ?_, ?_⟩
  · intro Handle Url
    rw [hreq]
  · intro E Handle self Prompt Options
    simp only [SendImageRequest, hreq]
    rfl

/-- C26, witness: the developer token is ignored, one state holds a developer
token and the other none. -/
theorem C26_ignored_developer_token_witness :
    GetAuthToken (some { ignoredDeveloperTokenSettings with DeveloperToken := "dev-token" })
        = GetAuthToken (some { ignoredDeveloperTokenSettings with DeveloperToken := "" })
      ∧ (CreateAuthenticatedRequest
            (some { ignoredDeveloperTokenSettings with DeveloperToken := "dev-token" })
            0 "url").GetHeader "Authorization"
          = (CreateAuthenticatedRequest
            (some { ignoredDeveloperTokenSettings with DeveloperToken := "" })
            0 "url").GetHeader "Authorization" :=
  ⟨(C26_ignored_developer_token ignoredDeveloperTokenSettings "dev-token" "" rfl).1,
   (C26_ignored_developer_token ignoredDeveloperTokenSettings "dev-token" "" rfl).2.2.2.1
     0 "url"⟩

end RequestAuthentication

/-! ## Image client: the three entry points -/

section EntryPoints

open UPlayKitImageClient

/-- The request body with a seed that is not negative is the body without
seed followed by the seed field. -/
theorem RequestBody_with_seed (ModelName Prompt Size : String) (Seed : Int) (hseed : 0 ≤ Seed) :
    RequestBody ModelName Prompt { Size := Size, Count := 1, Seed := Seed }
      = RequestBody ModelName Prompt { Size := Size, Count := 1, Seed := -1 }
          ++ [("seed", FJsonValue.FJsonValueNumber Seed)] := by
  have h : Seed ≥ 0 := hseed
  simp [RequestBody, h]

/-- C27: `GenerateImage(Prompt, Size)`, `GenerateImageWithSeed(Prompt, Size, -1)`
and `GenerateImages(Prompt, {Size, Count = 1, Seed = -1})` give the same state
and the same effects (events and request) from every client state. For a seed
`s ≥ 0`, `GenerateImageWithSeed(Prompt, Size, s)` gives the same state and the
same effects up to the content of the request, and that content is the
serialized body of the other three with the field seed = `s` added. -/
theorem C27_entry_points_agree (E : Engine) (Settings : Option UPlayKitSettings)
    (Handle : Nat) (self : UPlayKitImageClient) (Prompt Size : String) :
    GenerateImage E Settings Handle self Prompt Size
        = GenerateImageWithSeed E Settings Handle self Prompt Size (-1)
      ∧ GenerateImage E Settings Handle self Prompt Size
        = GenerateImages E Settings Handle self Prompt { Size := Size, Count := 1, Seed := -1 }
      ∧ ∀ Seed : Int, 0 ≤ Seed →
          (GenerateImageWithSeed E Settings Handle self Prompt Size Seed).2.map
              (Effect.mapRequest (fun r => r.SetContentAsString ""))
            = (GenerateImage E Settings Handle self Prompt Size).2.map
              (Effect.mapRequest (fun r => r.SetContentAsString ""))
          ∧ (GenerateImageWithSeed E Settings Handle self Prompt Size Seed).1.mapRequest
              (fun r => r.SetContentAsString "")
            = (GenerateImage E Settings Handle self Prompt Size).1.mapRequest
              (fun r => r.SetContentAsString "")
          ∧ (∀ Request ∈ processedOf (GenerateImage E Settings Handle self Prompt Size).2,
              Request.Content = E.Serialize
                (RequestBody self.ModelName Prompt { Size := Size, Count := 1, Seed := -1 }))
          ∧ (∀ Request ∈
                processedOf (GenerateImageWithSeed E Settings Handle self Prompt Size Seed).2,
              Request.Content = E.Serialize
                (RequestBody self.ModelName Prompt { Size := Size, Count := 1, Seed := -1 }
                  ++ [("seed", FJsonValue.FJsonValueNumber Seed)])) := by
  refine ⟨rfl, rfl, ?_⟩
  intro Seed hseed
  refine ⟨?_, ?_, ?_, ?_⟩
  · unfold GenerateImageWithSeed GenerateImage SendImageRequest
    split_ifs
    · rfl
    · rfl
    · cases Settings with
      | none => rfl
      | some S => simp [Effect.mapRequest, FHttpRequest.SetContentAsString]
  · unfold GenerateImageWithSeed GenerateImage SendImageRequest
    split_ifs
    · rfl
    · rfl
    · cases Settings with
      | none => rfl
      | some S => simp [UPlayKitImageClient.mapRequest, FHttpRequest.SetContentAsString]
  · exact SendImageRequest_content E Settings Handle self Prompt _
  · intro Request hmem
    rw [← RequestBody_with_seed self.ModelName Prompt Size Seed hseed]
    exact SendImageRequest_content E Settings Handle self Prompt _ Request hmem

/-- C27, witness: a fresh client with the seed 7. -/
theorem C27_entry_points_agree_witness :
    (GenerateImageWithSeed exampleEngine (some exampleSettings) 0
        { ModelName := "image-model" } "a cat" "1024x1024" 7).2.map
        (Effect.mapRequest (fun r => r.SetContentAsString ""))
      = (GenerateImage exampleEngine (some exampleSettings) 0
        { ModelName := "image-model" } "a cat" "1024x1024").2.map
        (Effect.mapRequest (fun r => r.SetContentAsString ""))
      ∧ ∀ Request ∈ processedOf (GenerateImageWithSeed exampleEngine (some exampleSettings) 0
          { ModelName := "image-model" } "a cat" "1024x1024" 7).2,
          Request.Content = exampleEngine.Serialize
            (RequestBody "image-model" "a cat" { Size := "1024x1024", Count := 1, Seed := -1 }
              ++ [("seed", FJsonValue.FJsonValueNumber 7)]) :=
  ⟨((C27_entry_points_agree exampleEngine (some exampleSettings) 0
      { ModelName := "image-model" } "a cat" "1024x1024").2.2 7 (by decide)).1,
   ((C27_entry_points_agree exampleEngine (some exampleSettings) 0
      { ModelName := "image-model" } "a cat" "1024x1024").2.2 7 (by decide)).2.2.2⟩

end EntryPoints

end PlayKit
